import Mathlib

/-!
# Download handling of the zedagent (cmd/zedagent/handledownload.go)

A shallow embedding of the reference-counted download request manager, the
per-object reconciler `checkStorageDownloadStatus` and the installer
`installDownloadedObject(s)`.

Conventions of the embedding

* A Go function that can end the process (`log.Fatal`, `log.Fatalf`, an index
  out of range) returns an `Option`; `none` is the aborted process.
* A pointer argument that the Go code mutates is passed in and returned.
* The publish/subscribe channels of the context are finite maps from key to
  record, written as functions `String → Option α`.
* Log output is not modelled.
-/

namespace Zedagent

/-! ## Types of the `types` package used by the file -/

/-- Modelled from the spec: the declaration of `types.SwState` is not part of the
source file. The lifecycle states in their pipeline order
`INITIAL < DOWNLOAD_STARTED < DOWNLOADED < DELIVERED < INSTALLED`, and the
sentinel `MAXSTATE` that the source uses as "above every state". -/
inductive SwState where
  | INITIAL
  | DOWNLOAD_STARTED
  | DOWNLOADED
  | DELIVERED
  | INSTALLED
  | MAXSTATE
  deriving DecidableEq, Repr

/-- Position of a state in the pipeline order. -/
def SwState.toNat : SwState → Nat
  | .INITIAL => 0
  | .DOWNLOAD_STARTED => 1
  | .DOWNLOADED => 2
  | .DELIVERED => 3
  | .INSTALLED => 4
  | .MAXSTATE => 5

instance : LT SwState := ⟨fun a b => a.toNat < b.toNat⟩

instance : LE SwState := ⟨fun a b => a.toNat ≤ b.toNat⟩

instance (a b : SwState) : Decidable (a < b) := inferInstanceAs (Decidable (a.toNat < b.toNat))

instance (a b : SwState) : Decidable (a ≤ b) := inferInstanceAs (Decidable (a.toNat ≤ b.toNat))

/-- A reading of `time.Time`; `0` is the zero value of an unset time. -/
abbrev Time := Nat

/-- The fields of `types.StorageConfig` that the file reads. -/
structure StorageConfig where
  DownloadURL : String
  Size : Nat
  TransportMethod : String
  Dpath : String
  ApiKey : String
  Password : String
  ImageSha256 : String
  FinalObjDir : String
  deriving DecidableEq, Repr

/-- The fields of `types.StorageStatus` that the file reads or writes. -/
structure StorageStatus where
  State : SwState
  HasDownloaderRef : Bool
  HasVerifierRef : Bool
  Error : String
  ErrorTime : Time
  deriving DecidableEq, Repr

/-- Modelled from the spec: the declaration of `types.DownloaderConfig` is not part
of the source file. The download request record built by `createDownloaderConfig`;
`RefCount` is the reference count of the request, a natural number. -/
structure DownloaderConfig where
  Safename : String
  DownloadURL : String
  UseFreeUplinks : Bool
  Size : Nat
  TransportMethod : String
  Dpath : String
  ApiKey : String
  Password : String
  ImageSha256 : String
  RefCount : Nat
  deriving DecidableEq, Repr

/-- Modelled from the spec: `DownloaderConfig.Key()` is not part of the source file.
A request is identified by its safe name. -/
def DownloaderConfig.Key (config : DownloaderConfig) : String := config.Safename

/-- The fields of `types.DownloaderStatus` that the file reads. -/
structure DownloaderStatus where
  Safename : String
  ObjType : String
  State : SwState
  PendingAdd : Bool
  PendingModify : Bool
  PendingDelete : Bool
  LastErr : String
  LastErrTime : Time
  deriving DecidableEq, Repr

/-- Modelled from the spec: `DownloaderStatus.Key()` is not part of the source file.
A download result is keyed by the same safe name as its request. -/
def DownloaderStatus.Key (status : DownloaderStatus) : String := status.Safename

/-- The fields of `types.VerifyImageStatus` that the file reads. -/
structure VerifyImageStatus where
  Safename : String
  State : SwState
  deriving DecidableEq, Repr

/-- The record `types.RetStatus` returned by the reconciler. -/
structure RetStatus where
  Changed : Bool
  MinState : SwState
  AllErrors : String
  ErrorTime : Time
  WaitingForCerts : Bool
  deriving DecidableEq, Repr

/-! ## Publish/subscribe channels -/

/-- Modelled from the spec: the `pubsub` package is not part of the source file.
A publication is a keyed collection of records with get, put and remove. -/
@[ext]
structure Publication (α : Type) where
  km : String → Option α

/-- The record published under `key`, `none` when there is none (`pub.Get`). -/
def Publication.Get {α : Type} (pub : Publication α) (key : String) : Option α :=
  pub.km key

/-- Publish `item` under `key`, replacing what was there (`pub.Publish`). -/
def Publication.Publish {α : Type} (pub : Publication α) (key : String) (item : α) :
    Publication α :=
  ⟨fun k => if k = key then some item else pub.km k⟩

/-- Remove what is published under `key` (`pub.Unpublish`). -/
def Publication.Unpublish {α : Type} (pub : Publication α) (key : String) :
    Publication α :=
  ⟨fun k => if k = key then none else pub.km k⟩

/-- Modelled from the spec: the `pubsub` package is not part of the source file.
A subscription is a keyed collection of records written by the other side; the
agent only reads it. -/
@[ext]
structure Subscription (α : Type) where
  km : String → Option α

/-- The record received under `key`, `none` when there is none (`sub.Get`). -/
def Subscription.Get {α : Type} (sub : Subscription α) (key : String) : Option α :=
  sub.km key

/-! ## The context and the parts of the repository outside the file -/

/-- The fields of `zedagentContext` used by the file: the two download request
publications, the two download result subscriptions, and the state `V` of the
verifier channels, which the file only reaches through `lookupVerificationStatusAny`
and `createVerifierConfig`. -/
structure zedagentContext (V : Type) where
  pubBaseOsDownloadConfig : Publication DownloaderConfig
  pubCertObjDownloadConfig : Publication DownloaderConfig
  subBaseOsDownloadStatus : Subscription DownloaderStatus
  subCertObjDownloadStatus : Subscription DownloaderStatus
  verifier : V

/-- What the file uses and does not define: constants, the naming functions, the
error formatter, the verifier request manager (on the verifier state `V`) and the
file system with the two install policies and the clock (on the world `W`).
A component that can end the process returns an `Option`. An `error` result is
`none` for `nil` and `some msg` for an error whose text is `msg`. -/
structure Env (V W : Type) where
  baseOsObj : String
  certObj : String
  objectDownloadDirname : String
  UrlToSafename : String → String → String
  SafenameToFilename : String → String
  appendError : String → String → String → String
  lookupVerificationStatusAny : V → String → String → String → Option (Option VerifyImageStatus)
  createVerifierConfig : V → String → String → StorageConfig → Bool → Option (V × Option String)
  stat : W → String → Option String
  installCertObject : W → String → String → String → Option (W × Option String)
  installBaseOsObject : W → String → String → Option (W × Option String)
  now : W → Time

variable {V W : Type}

/-! ## Channel selection (lines 390-416) -/

/-- The download request publication of an object kind; fatal for an unknown kind. -/
def downloaderPublication (env : Env V W) (ctx : zedagentContext V) (objType : String) :
    Option (Publication DownloaderConfig) :=
  if objType = env.baseOsObj then some ctx.pubBaseOsDownloadConfig
  else if objType = env.certObj then some ctx.pubCertObjDownloadConfig
  else none

/-- Write through the pointer returned by `downloaderPublication`: the context in
which the publication of the object kind is `pub`. -/
def setDownloaderPublication (env : Env V W) (ctx : zedagentContext V) (objType : String)
    (pub : Publication DownloaderConfig) : zedagentContext V :=
  if objType = env.baseOsObj then { ctx with pubBaseOsDownloadConfig := pub }
  else if objType = env.certObj then { ctx with pubCertObjDownloadConfig := pub }
  else ctx

/-- The download result subscription of an object kind; fatal for an unknown kind. -/
def downloaderSubscription (env : Env V W) (ctx : zedagentContext V) (objType : String) :
    Option (Subscription DownloaderStatus) :=
  if objType = env.baseOsObj then some ctx.subBaseOsDownloadStatus
  else if objType = env.certObj then some ctx.subCertObjDownloadStatus
  else none

/-! ## Request manager (lines 17-61, 94-133, 365-388) -/

/-- Lines 365-373. -/
def publishDownloaderConfig (env : Env V W) (ctx : zedagentContext V) (objType : String)
    (config : DownloaderConfig) : Option (zedagentContext V) :=
  let key := config.Key
  match downloaderPublication env ctx objType with
  | none => none
  | some pub => some (setDownloaderPublication env ctx objType (pub.Publish key config))

/-- Lines 375-388. -/
def unpublishDownloaderConfig (env : Env V W) (ctx : zedagentContext V) (objType : String)
    (config : DownloaderConfig) : Option (zedagentContext V) :=
  let key := config.Key
  match downloaderPublication env ctx objType with
  | none => none
  | some pub =>
    match pub.Get key with
    | none => some ctx
    | some _ => some (setDownloaderPublication env ctx objType (pub.Unpublish key))

/-- Lines 17-34. The outer `Option` is the fatal abort, the inner one the `nil`
result. -/
def lookupDownloaderConfig (env : Env V W) (ctx : zedagentContext V) (objType : String)
    (safename : String) : Option (Option DownloaderConfig) :=
  match downloaderPublication env ctx objType with
  | none => none
  | some pub =>
    match pub.Get safename with
    | none => some none
    | some config => if config.Key ≠ safename then some none else some (some config)

/-- Lines 36-61. -/
def createDownloaderConfig (env : Env V W) (ctx : zedagentContext V) (objType : String)
    (safename : String) (sc : StorageConfig) : Option (zedagentContext V) :=
  match lookupDownloaderConfig env ctx objType safename with
  | none => none
  | some (some m) =>
    publishDownloaderConfig env ctx objType { m with RefCount := m.RefCount + 1 }
  | some none =>
    publishDownloaderConfig env ctx objType
      { Safename := safename
        DownloadURL := sc.DownloadURL
        UseFreeUplinks := false
        Size := sc.Size
        TransportMethod := sc.TransportMethod
        Dpath := sc.Dpath
        ApiKey := sc.ApiKey
        Password := sc.Password
        ImageSha256 := sc.ImageSha256
        RefCount := 1 }

/-- Lines 94-114. -/
def removeDownloaderConfig (env : Env V W) (ctx : zedagentContext V) (objType : String)
    (safename : String) : Option (zedagentContext V) :=
  match lookupDownloaderConfig env ctx objType safename with
  | none => none
  | some none => some ctx
  | some (some config) =>
    if config.RefCount > 1 then
      publishDownloaderConfig env ctx objType { config with RefCount := config.RefCount - 1 }
    else
      unpublishDownloaderConfig env ctx objType config

/-- Lines 116-133. -/
def lookupDownloaderStatus (env : Env V W) (ctx : zedagentContext V) (objType : String)
    (safename : String) : Option (Option DownloaderStatus) :=
  match downloaderSubscription env ctx objType with
  | none => none
  | some sub =>
    match sub.Get safename with
    | none => some none
    | some status => if status.Key ≠ safename then some none else some (some status)

/-! ## The reconciler (lines 135-256) -/

/-- Lines 139-145: the result record before the first artifact. -/
def initRetStatus : RetStatus :=
  { Changed := false
    MinState := SwState.MAXSTATE
    AllErrors := ""
    ErrorTime := 0
    WaitingForCerts := false }

/-- Lines 166-190: the artifact has a verify result `vs` in state `DELIVERED`. -/
def checkStorageVerified (env : Env V W) (objType : String) (sc : StorageConfig)
    (vs : VerifyImageStatus) (ctx : zedagentContext V) (ret : RetStatus)
    (ss : StorageStatus) : Option (zedagentContext V × RetStatus × StorageStatus) :=
  match
    (if ss.HasVerifierRef = false then
      match env.createVerifierConfig ctx.verifier objType vs.Safename sc false with
      | none => none
      | some (v, _) =>
        some ({ ctx with verifier := v }, { ret with Changed := true },
          { ss with HasVerifierRef := true })
    else some (ctx, ret, ss)) with
  | none => none
  | some (ctx1, ret1, ss1) =>
    let ret2 := if ret1.MinState > vs.State then { ret1 with MinState := vs.State } else ret1
    if vs.State ≠ ss1.State then
      some (ctx1, { ret2 with Changed := true }, { ss1 with State := vs.State })
    else some (ctx1, ret2, ss1)

/-- Lines 219-248: the switch on the mirrored state, with the download result `ds`. -/
def checkStorageSwitch (env : Env V W) (objType safename : String) (sc : StorageConfig)
    (ds : DownloaderStatus) (ctx : zedagentContext V) (ret : RetStatus)
    (ss : StorageStatus) : Option (zedagentContext V × RetStatus × StorageStatus) :=
  match ss.State with
  | SwState.INITIAL =>
    some (ctx,
      { ret with
        AllErrors := env.appendError ret.AllErrors "downloader" ds.LastErr
        ErrorTime := ds.LastErrTime
        Changed := true },
      { ss with Error := ds.LastErr, ErrorTime := ds.LastErrTime })
  | SwState.DOWNLOADED =>
    if sc.ImageSha256 ≠ "" then
      if ss.HasVerifierRef = false then
        match env.createVerifierConfig ctx.verifier objType safename sc true with
        | none => none
        | some (v, none) =>
          some ({ ctx with verifier := v }, { ret with Changed := true },
            { ss with HasVerifierRef := true })
        | some (v, some _) =>
          some ({ ctx with verifier := v }, { ret with WaitingForCerts := true }, ss)
      else some (ctx, ret, ss)
    else some (ctx, ret, ss)
  | _ => some (ctx, ret, ss)

/-- Lines 201-248: look up the download result of the artifact and mirror it. -/
def checkStorageResult (env : Env V W) (objType safename : String) (sc : StorageConfig)
    (ctx : zedagentContext V) (ret : RetStatus) (ss : StorageStatus) :
    Option (zedagentContext V × RetStatus × StorageStatus) :=
  match lookupDownloaderStatus env ctx objType safename with
  | none => none
  | some none => some (ctx, { ret with MinState := SwState.DOWNLOAD_STARTED }, ss)
  | some (some ds) =>
    let ret1 := if ret.MinState > ds.State then { ret with MinState := ds.State } else ret
    if ds.State ≠ ss.State then
      checkStorageSwitch env objType safename sc ds ctx { ret1 with Changed := true }
        { ss with State := ds.State }
    else checkStorageSwitch env objType safename sc ds ctx ret1 ss

/-- Lines 194-248: the download path of one artifact; lines 194-199 acquire the
download reference when the item holds none. -/
def checkStorageDownloader (env : Env V W) (objType safename : String) (sc : StorageConfig)
    (ctx : zedagentContext V) (ret : RetStatus) (ss : StorageStatus) :
    Option (zedagentContext V × RetStatus × StorageStatus) :=
  if ss.HasDownloaderRef = false then
    match createDownloaderConfig env ctx objType safename sc with
    | none => none
    | some ctx1 =>
      checkStorageResult env objType safename sc ctx1 { ret with Changed := true }
        { ss with HasDownloaderRef := true }
  else checkStorageResult env objType safename sc ctx ret ss

/-- Lines 149-248: the loop body for one artifact, with its config `sc` and its
status `ss`. -/
def checkStorageDownloadStatusItem (env : Env V W) (objType : String) (sc : StorageConfig)
    (ctx : zedagentContext V) (ret : RetStatus) (ss : StorageStatus) :
    Option (zedagentContext V × RetStatus × StorageStatus) :=
  let safename := env.UrlToSafename sc.DownloadURL sc.ImageSha256
  if ss.State = SwState.INSTALLED then
    some (ctx, { ret with MinState := ss.State }, ss)
  else if sc.ImageSha256 ≠ "" then
    match env.lookupVerificationStatusAny ctx.verifier objType safename sc.ImageSha256 with
    | none => none
    | some (some vs) =>
      if vs.State = SwState.DELIVERED then checkStorageVerified env objType sc vs ctx ret ss
      else checkStorageDownloader env objType safename sc ctx ret ss
    | some none => checkStorageDownloader env objType safename sc ctx ret ss
  else checkStorageDownloader env objType safename sc ctx ret ss

/-- Lines 147-249: the loop over `config`, indexing `status`; a `status` shorter
than `config` is an index out of range. -/
def checkStorageDownloadStatusLoop (env : Env V W) (objType : String) :
    zedagentContext V → RetStatus → List StorageConfig → List StorageStatus →
    Option (zedagentContext V × RetStatus × List StorageStatus)
  | ctx, ret, [], status => some (ctx, ret, status)
  | _, _, _ :: _, [] => none
  | ctx, ret, sc :: config, ss :: status =>
    match checkStorageDownloadStatusItem env objType sc ctx ret ss with
    | none => none
    | some (ctx1, ret1, ss1) =>
      match checkStorageDownloadStatusLoop env objType ctx1 ret1 config status with
      | none => none
      | some (ctx2, ret2, status2) => some (ctx2, ret2, ss1 :: status2)

/-- Lines 135-256. Returns the context, the result record and the status slice
after the pass. -/
def checkStorageDownloadStatus (env : Env V W) (ctx : zedagentContext V)
    (objType : String) (uuidStr : String) (config : List StorageConfig)
    (status : List StorageStatus) :
    Option (zedagentContext V × RetStatus × List StorageStatus) :=
  let _ := uuidStr
  match checkStorageDownloadStatusLoop env objType ctx initRetStatus config status with
  | none => none
  | some (ctx1, ret, status1) =>
    if ret.MinState = SwState.MAXSTATE then
      some (ctx1, { ret with MinState := SwState.DOWNLOADED }, status1)
    else some (ctx1, ret, status1)

/-! ## The installer (lines 258-363) -/

/-- Lines 297-323: the source file of the placement, `none` when the call returns
`nil` without placing anything. -/
def installSource (env : Env V W) (objType safename : String) (config : StorageConfig)
    (status : StorageStatus) : Option String :=
  let srcFilename := env.objectDownloadDirname ++ "/" ++ objType
  match status.State with
  | SwState.INSTALLED => none
  | SwState.DOWNLOADED =>
    if config.ImageSha256 ≠ "" then none
    else some (srcFilename ++ "/pending/" ++ safename)
  | SwState.DELIVERED =>
    some (srcFilename ++ "/verified/" ++ config.ImageSha256 ++ "/" ++
      env.SafenameToFilename safename)
  | _ => none

/-- Lines 330-352: the move to the final installation point; the world after it and
the error `ret`. -/
def installPlace (env : Env V W) (w : W) (objType safename srcFilename : String)
    (config : StorageConfig) (status : StorageStatus) : Option (W × Option String) :=
  if config.FinalObjDir ≠ "" then
    let dstFilename := config.FinalObjDir
    if objType = env.certObj then env.installCertObject w srcFilename dstFilename safename
    else if objType = env.baseOsObj then env.installBaseOsObject w srcFilename dstFilename
    else some (w, some status.Error)
  else
    some (w, some ("installDownloadedObject " ++ safename ++ ", final dir not set " ++
      objType ++ "\n"))

/-- Lines 285-363. Returns the world, the status after the call and the error. -/
def installDownloadedObject (env : Env V W) (w : W) (objType safename : String)
    (config : StorageConfig) (status : StorageStatus) :
    Option (W × StorageStatus × Option String) :=
  match installSource env objType safename config status with
  | none => some (w, status, none)
  | some srcFilename =>
    match env.stat w srcFilename with
    | some _ => none
    | none =>
      match installPlace env w objType safename srcFilename config status with
      | none => none
      | some (w1, none) => some (w1, { status with State := SwState.INSTALLED }, none)
      | some (w1, some err) =>
        some (w1, { status with State := SwState.INITIAL, Error := err, ErrorTime := env.now w1 },
          some err)

/-- Lines 258-280. Returns the world, the status slice after the pass and the
result `ret`. -/
def installDownloadedObjects (env : Env V W) (objType : String) (uuidStr : String) :
    W → List StorageConfig → List StorageStatus → Option (W × List StorageStatus × Bool)
  | w, [], status => some (w, status, true)
  | _, _ :: _, [] => none
  | w, sc :: config, ss :: status =>
    let safename := env.UrlToSafename sc.DownloadURL sc.ImageSha256
    match installDownloadedObject env w objType safename sc ss with
    | none => none
    | some (w1, ss1, _) =>
      match installDownloadedObjects env objType uuidStr w1 config status with
      | none => none
      | some (w2, status2, ret) =>
        some (w2, ss1 :: status2, if ss1.State ≠ SwState.INSTALLED then false else ret)

/-- Lines 354-362: the end of `installDownloadedObject`, from the outcome of the
placement (`none` when the placement ended the process). -/
def installFinish (env : Env V W) (status : StorageStatus) :
    Option (W × Option String) → Option (W × StorageStatus × Option String)
  | none => none
  | some (w1, none) => some (w1, { status with State := SwState.INSTALLED }, none)
  | some (w1, some err) =>
    some (w1, { status with State := SwState.INITIAL, Error := err, ErrorTime := env.now w1 },
      some err)

/-- A call that `installDownloadedObject` makes outside the file: `os.Stat`, one of the
two install policies, or `time.Now`, with its arguments. -/
inductive InstallCall where
  | stat (name : String)
  | installCertObject (srcFilename dstDirname safename : String)
  | installBaseOsObject (srcFilename dstFilename : String)
  | timeNow
  deriving DecidableEq, Repr

/-- Lines 330-352: the policy call made by the move to the final installation point,
if any. -/
def installPlaceCalls (env : Env V W) (objType safename srcFilename : String)
    (config : StorageConfig) : List InstallCall :=
  if config.FinalObjDir ≠ "" then
    if objType = env.certObj then
      [InstallCall.installCertObject srcFilename config.FinalObjDir safename]
    else if objType = env.baseOsObj then
      [InstallCall.installBaseOsObject srcFilename config.FinalObjDir]
    else []
  else []

/-- Lines 285-363 once more, with what an abort of the process leaves behind: the calls
made outside the file, in the order they are made; the item as the call leaves it, also
when the process is ended; and, when the call returns, the world and the error. -/
def installDownloadedObjectTrace (env : Env V W) (w : W) (objType safename : String)
    (config : StorageConfig) (status : StorageStatus) :
    List InstallCall × StorageStatus × Option (W × Option String) :=
  match installSource env objType safename config status with
  | none => ([], status, some (w, none))
  | some srcFilename =>
    match env.stat w srcFilename with
    | some _ => ([InstallCall.stat srcFilename], status, none)
    | none =>
      match installPlace env w objType safename srcFilename config status with
      | none =>
        (InstallCall.stat srcFilename ::
          installPlaceCalls env objType safename srcFilename config, status, none)
      | some (w1, none) =>
        (InstallCall.stat srcFilename ::
          installPlaceCalls env objType safename srcFilename config,
          { status with State := SwState.INSTALLED }, some (w1, none))
      | some (w1, some err) =>
        (InstallCall.stat srcFilename ::
          (installPlaceCalls env objType safename srcFilename config ++ [InstallCall.timeNow]),
          { status with State := SwState.INITIAL, Error := err, ErrorTime := env.now w1 },
          some (w1, some err))

/-! ## Reaction to a download result (lines 63-91) -/

/-- The two handlers called by `updateDownloaderStatus`; they are defined outside the
file. A handler takes the context and a safe name and can end the process. -/
structure StatusHandlers (V : Type) where
  baseOsHandleStatusUpdateSafename : zedagentContext V → String → Option (zedagentContext V)
  certObjHandleStatusUpdateSafename : zedagentContext V → String → Option (zedagentContext V)

/-- Lines 63-91. -/
def updateDownloaderStatus (env : Env V W) (handlers : StatusHandlers V)
    (ctx : zedagentContext V) (status : DownloaderStatus) : Option (zedagentContext V) :=
  let objType := status.ObjType
  if status.PendingAdd = true ∨ status.PendingModify = true ∨ status.PendingDelete = true then
    some ctx
  else if objType = env.baseOsObj then
    handlers.baseOsHandleStatusUpdateSafename ctx status.Safename
  else if objType = env.certObj then
    handlers.certObjHandleStatusUpdateSafename ctx status.Safename
  else none

/-! ## Notions used to state the properties -/

/-- The object kinds that have download channels: base-OS and certificate. -/
def Supported (env : Env V W) (objType : String) : Prop :=
  objType = env.baseOsObj ∨ objType = env.certObj

instance (env : Env V W) (objType : String) : Decidable (Supported env objType) :=
  inferInstanceAs (Decidable (_ ∨ _))

/-- The request under `safename` is published with reference count `k`. -/
def Published (env : Env V W) (ctx : zedagentContext V) (objType safename : String)
    (k : Nat) : Prop :=
  ∃ pub m, downloaderPublication env ctx objType = some pub ∧ pub.Get safename = some m ∧
    m.Key = safename ∧ m.RefCount = k

/-- Nothing is published under `safename`. -/
def Unpublished (env : Env V W) (ctx : zedagentContext V) (objType safename : String) : Prop :=
  ∃ pub, downloaderPublication env ctx objType = some pub ∧ pub.Get safename = none

/-- One `createDownloaderConfig` call on `safename` for each config of the list. -/
def createDownloaderConfigs (env : Env V W) (objType safename : String) :
    List StorageConfig → zedagentContext V → Option (zedagentContext V)
  | [], ctx => some ctx
  | sc :: scs, ctx =>
    match createDownloaderConfig env ctx objType safename sc with
    | none => none
    | some ctx1 => createDownloaderConfigs env objType safename scs ctx1

/-- The given number of `removeDownloaderConfig` calls on `safename`. -/
def removeDownloaderConfigs (env : Env V W) (objType safename : String) :
    Nat → zedagentContext V → Option (zedagentContext V)
  | 0, ctx => some ctx
  | n + 1, ctx =>
    match removeDownloaderConfig env ctx objType safename with
    | none => none
    | some ctx1 => removeDownloaderConfigs env objType safename n ctx1

/-- The download request publications of `b` are those of `a`. -/
def SamePubs (a b : zedagentContext V) : Prop :=
  b.pubBaseOsDownloadConfig = a.pubBaseOsDownloadConfig ∧
    b.pubCertObjDownloadConfig = a.pubCertObjDownloadConfig

/-- The download result subscriptions of `b` are those of `a`. -/
def SameSubs (a b : zedagentContext V) : Prop :=
  b.subBaseOsDownloadStatus = a.subBaseOsDownloadStatus ∧
    b.subCertObjDownloadStatus = a.subCertObjDownloadStatus

/-- What one pass does to the mirrored state of an item: nothing, or the copy of
a `DELIVERED` verify result, or the copy of the download result of its safe name. -/
def StateStep (env : Env V W) (ctx : zedagentContext V) (objType : String)
    (sc : StorageConfig) (ss ss1 : StorageStatus) : Prop :=
  (ss1.State = ss.State ∧ ss1.Error = ss.Error ∧ ss1.ErrorTime = ss.ErrorTime) ∨
    (ss.State ≠ SwState.INSTALLED ∧ ss1.State = SwState.DELIVERED ∧ ss1.Error = ss.Error ∧
      ss1.ErrorTime = ss.ErrorTime) ∨
    ∃ ds, lookupDownloaderStatus env ctx objType
        (env.UrlToSafename sc.DownloadURL sc.ImageSha256) = some (some ds) ∧
      ss1.State = ds.State ∧
      (ds.State = SwState.INITIAL → ss1.Error = ds.LastErr ∧ ss1.ErrorTime = ds.LastErrTime)

/-- What one pass does to the download reference of an item and to the request
publications: nothing, or one `createDownloaderConfig` by an item that held none. -/
def RefStep (env : Env V W) (ctx ctx1 : zedagentContext V) (objType : String)
    (sc : StorageConfig) (ss ss1 : StorageStatus) : Prop :=
  (ss1.HasDownloaderRef = ss.HasDownloaderRef ∧ SamePubs ctx ctx1) ∨
    (ss.HasDownloaderRef = false ∧ ss1.HasDownloaderRef = true ∧ ∃ ctxm,
      createDownloaderConfig env ctx objType
        (env.UrlToSafename sc.DownloadURL sc.ImageSha256) sc = some ctxm ∧
      SamePubs ctxm ctx1)

/-- The reference count published under `name` on the channel of the object kind,
`0` when nothing is published there. -/
def publishedRefCount (env : Env V W) (ctx : zedagentContext V) (objType name : String) :
    Nat :=
  match downloaderPublication env ctx objType with
  | none => 0
  | some pub =>
    match pub.Get name with
    | none => 0
    | some c => c.RefCount

/-- The number of items of the object that hold a download reference and whose
config maps to the safe name `name`. -/
def heldRefs (env : Env V W) (name : String) :
    List StorageConfig → List StorageStatus → Nat
  | sc :: config, ss :: status =>
    (if ss.HasDownloaderRef = true ∧ env.UrlToSafename sc.DownloadURL sc.ImageSha256 = name
      then 1 else 0) + heldRefs env name config status
  | _, _ => 0

/-- Every record of the request channel of the object kind is stored under its own
key. -/
def KeysMatch (env : Env V W) (ctx : zedagentContext V) (objType : String) : Prop :=
  ∀ pub k c, downloaderPublication env ctx objType = some pub → pub.Get k = some c → c.Key = k

/-- The states and configs on which the installer has nothing to do. -/
def InstallNoOp (config : StorageConfig) (status : StorageStatus) : Prop :=
  status.State = SwState.INSTALLED ∨
    (status.State = SwState.DOWNLOADED ∧ config.ImageSha256 ≠ "") ∨
    (status.State ≠ SwState.INSTALLED ∧ status.State ≠ SwState.DOWNLOADED ∧
      status.State ≠ SwState.DELIVERED)

instance (config : StorageConfig) (status : StorageStatus) :
    Decidable (InstallNoOp config status) :=
  inferInstanceAs (Decidable (_ ∨ _))

/-- The record that `createDownloaderConfig` builds from the supplied parameters. -/
def freshRequest (safename : String) (sc : StorageConfig) : DownloaderConfig :=
  { Safename := safename
    DownloadURL := sc.DownloadURL
    UseFreeUplinks := false
    Size := sc.Size
    TransportMethod := sc.TransportMethod
    Dpath := sc.Dpath
    ApiKey := sc.ApiKey
    Password := sc.Password
    ImageSha256 := sc.ImageSha256
    RefCount := 1 }

/-- The verifier side does not move between two passes: the verification lookup does
not depend on the verifier state, and neither does the error returned by
`createVerifierConfig` nor whether it returns. -/
def VerifierFixed (env : Env V W) : Prop :=
  (∀ v v1 objType safename sha,
    env.lookupVerificationStatusAny v1 objType safename sha =
      env.lookupVerificationStatusAny v objType safename sha) ∧
  (∀ v v1 objType safename sc b,
    (env.createVerifierConfig v1 objType safename sc b).map Prod.snd =
      (env.createVerifierConfig v objType safename sc b).map Prod.snd)

/-- The second run of a step agrees with the first run `r ↦ ra` on the aggregated errors
and on the certificate flag, when it starts from a record `r1` that agrees with `r`. -/
def RetAgree (r ra r1 r2 : RetStatus) : Prop :=
  (r1.AllErrors = r.AllErrors → r2.AllErrors = ra.AllErrors) ∧
    (r1.WaitingForCerts = r.WaitingForCerts → r2.WaitingForCerts = ra.WaitingForCerts)

/-- No item of the object reached `INSTALLED` during the pass that took `status` to
`status1`. -/
def NoNewInstalled : List StorageConfig → List StorageStatus → List StorageStatus → Prop
  | _ :: config, ss :: status, ss1 :: status1 =>
    (ss1.State = SwState.INSTALLED → ss.State = SwState.INSTALLED) ∧
      NoNewInstalled config status status1
  | _, _, _ => True

/-! ## Sample inputs -/

/-- A sample environment: two object kinds, every staged file present, a verifier that
has the digest `D1` verified, a certificate policy that succeeds and a base-OS policy
that fails. The verifier state counts the verify requests created. -/
def sampleEnv : Env Nat Unit :=
  { baseOsObj := "baseOs.obj"
    certObj := "cert.obj"
    objectDownloadDirname := "/persist/downloads"
    UrlToSafename := fun url sha => url ++ "." ++ sha
    SafenameToFilename := fun safename => safename
    appendError := fun allErrors pfx lasterr => allErrors ++ pfx ++ ": " ++ lasterr ++ "\n\n"
    lookupVerificationStatusAny := fun _ _ _ sha =>
      if sha = "D1" then some (some { Safename := "other.D1", State := SwState.DELIVERED })
      else some none
    createVerifierConfig := fun v _ _ _ _ => some (v + 1, none)
    stat := fun _ _ => none
    installCertObject := fun w _ _ _ => some (w, none)
    installBaseOsObject := fun w _ _ => some (w, some "rename failed")
    now := fun _ => 7 }

/-- A sample artifact config with the given locator and digest. -/
def sampleConfig (url sha : String) : StorageConfig :=
  { DownloadURL := url
    Size := 0
    TransportMethod := ""
    Dpath := ""
    ApiKey := ""
    Password := ""
    ImageSha256 := sha
    FinalObjDir := "/final" }

/-- A sample item in state `s` holding no reference and no error. -/
def sampleStatus (s : SwState) : StorageStatus :=
  { State := s, HasDownloaderRef := false, HasVerifierRef := false, Error := "", ErrorTime := 0 }

/-- A sample item in state `s` holding a download reference. -/
def sampleStatusRef (s : SwState) : StorageStatus :=
  { State := s, HasDownloaderRef := true, HasVerifierRef := false, Error := "", ErrorTime := 0 }

/-- A sample download result for `safename` in state `s`, no pending flag. -/
def sampleResult (safename : String) (s : SwState) : DownloaderStatus :=
  { Safename := safename
    ObjType := "baseOs.obj"
    State := s
    PendingAdd := false
    PendingModify := false
    PendingDelete := false
    LastErr := ""
    LastErrTime := 0 }

/-- A sample request for `safename` with reference count `n`. -/
def sampleRequest (safename : String) (n : Nat) : DownloaderConfig :=
  { Safename := safename
    DownloadURL := ""
    UseFreeUplinks := false
    Size := 0
    TransportMethod := ""
    Dpath := ""
    ApiKey := ""
    Password := ""
    ImageSha256 := ""
    RefCount := n }

/-- A sample context: the base-OS channels hold the request `req` and the download
result `res` (each under its own key), the certificate channels are empty. -/
def sampleCtx (req : Option DownloaderConfig) (res : Option DownloaderStatus) :
    zedagentContext Nat :=
  { pubBaseOsDownloadConfig :=
      ⟨fun k => match req with
        | some c => if k = c.Safename then some c else none
        | none => none⟩
    pubCertObjDownloadConfig := ⟨fun _ => none⟩
    subBaseOsDownloadStatus :=
      ⟨fun k => match res with
        | some d => if k = d.Safename then some d else none
        | none => none⟩
    subCertObjDownloadStatus := ⟨fun _ => none⟩
    verifier := 0 }

/-- The reference count published for `safename` on the base-OS channel, if any. -/
def baseOsRefCount (ctx : zedagentContext Nat) (safename : String) : Option Nat :=
  (ctx.pubBaseOsDownloadConfig.Get safename).map (fun c => c.RefCount)

/-- A first pass over one fresh artifact whose download is complete, then the
installer with the failing base-OS policy, then a second pass: the reference count
after the first pass, the item after the failed installation, and the reference
count and item state after the second pass. -/
def installRetryTrace : Option (Option Nat × StorageStatus × Option Nat × SwState) :=
  match checkStorageDownloadStatus sampleEnv
      (sampleCtx none (some (sampleResult "a." SwState.DOWNLOADED))) "baseOs.obj" "uuid"
      [sampleConfig "a" ""] [sampleStatus SwState.INITIAL] with
  | some (ctx1, _, [ss1]) =>
    match installDownloadedObject sampleEnv () "baseOs.obj" "a." (sampleConfig "a" "") ss1 with
    | some (_, ss2, _) =>
      match checkStorageDownloadStatus sampleEnv ctx1 "baseOs.obj" "uuid"
          [sampleConfig "a" ""] [ss2] with
      | some (ctx3, _, [ss3]) =>
        some (baseOsRefCount ctx1 "a.", ss2, baseOsRefCount ctx3 "a.", ss3.State)
      | _ => none
    | none => none
  | _ => none

/-- A sample context whose base-OS result channel holds the two download results `r1`
and `r2`, each under its own key; nothing is published. -/
def sampleCtxResults (r1 r2 : DownloaderStatus) : zedagentContext Nat :=
  { pubBaseOsDownloadConfig := ⟨fun _ => none⟩
    pubCertObjDownloadConfig := ⟨fun _ => none⟩
    subBaseOsDownloadStatus :=
      ⟨fun k => if k = r1.Safename then some r1 else if k = r2.Safename then some r2 else none⟩
    subCertObjDownloadStatus := ⟨fun _ => none⟩
    verifier := 0 }

/-- Two passes of the reconciler in a row over an object of two artifacts, with the
download results `r1` and `r2`: the `MinState` returned and the item states left by the
first pass, then those of the second pass. -/
def twoPassTrace (r1 r2 : DownloaderStatus) :
    Option ((SwState × List SwState) × (SwState × List SwState)) :=
  match checkStorageDownloadStatus sampleEnv (sampleCtxResults r1 r2) "baseOs.obj" "uuid"
      [sampleConfig "a" "", sampleConfig "b" ""]
      [sampleStatus SwState.INITIAL, sampleStatus SwState.INITIAL] with
  | none => none
  | some (ctx1, ret1, status1) =>
    match checkStorageDownloadStatus sampleEnv ctx1 "baseOs.obj" "uuid"
        [sampleConfig "a" "", sampleConfig "b" ""] status1 with
    | none => none
    | some (_, ret2, status2) =>
      some ((ret1.MinState, status1.map (fun ss => ss.State)),
        (ret2.MinState, status2.map (fun ss => ss.State)))

/-- Sample handlers: the base-OS handler returns, the certificate handler ends the
process. -/
def sampleHandlers : StatusHandlers Nat :=
  { baseOsHandleStatusUpdateSafename := fun ctx _ => some { ctx with verifier := ctx.verifier + 1 }
    certObjHandleStatusUpdateSafename := fun _ _ => none }

/-- The sample environment with an empty staging area: every `os.Stat` fails. -/
def sampleEnvNoFile : Env Nat Unit :=
  { sampleEnv with stat := fun _ name => some ("stat " ++ name ++ ": no such file or directory") }

/-- A sample context whose base-OS request channel holds, under the key `a.`, a record
whose own key is `z.`. -/
def sampleCtxMismatch : zedagentContext Nat :=
  { pubBaseOsDownloadConfig := ⟨fun k => if k = "a." then some (sampleRequest "z." 5) else none⟩
    pubCertObjDownloadConfig := ⟨fun _ => none⟩
    subBaseOsDownloadStatus := ⟨fun _ => none⟩
    subCertObjDownloadStatus := ⟨fun _ => none⟩
    verifier := 0 }

/-! ## Lemmas on the request manager and on the frame of the reconciler -/

theorem downloaderPublication_set (env : Env V W) (ctx : zedagentContext V) (objType : String)
    (pub : Publication DownloaderConfig) (h : Supported env objType) :
    downloaderPublication env (setDownloaderPublication env ctx objType pub) objType = some pub := by
  unfold downloaderPublication setDownloaderPublication
  rcases h with h | h
  · simp [h]
  · by_cases hb : objType = env.baseOsObj
    · simp [hb]
    · subst h
      simp [hb]

theorem supported_publication (env : Env V W) (ctx : zedagentContext V) (objType : String)
    (h : Supported env objType) : ∃ pub, downloaderPublication env ctx objType = some pub := by
  unfold downloaderPublication
  rcases h with h | h
  · simp [h]
  · by_cases hb : objType = env.baseOsObj
    · simp [hb]
    · subst h
      simp [hb]

theorem Publication.get_publish {α : Type} (pub : Publication α) (key k : String) (item : α) :
    (pub.Publish key item).Get k = if k = key then some item else pub.Get k := rfl

theorem Publication.get_unpublish {α : Type} (pub : Publication α) (key k : String) :
    (pub.Unpublish key).Get k = if k = key then none else pub.Get k := rfl

theorem create_of_unpublished (env : Env V W) (ctx : zedagentContext V) (objType safename : String)
    (sc : StorageConfig) (hs : Supported env objType)
    (h : Unpublished env ctx objType safename) :
    ∃ ctx1, createDownloaderConfig env ctx objType safename sc = some ctx1 ∧
      Published env ctx1 objType safename 1 := by
  obtain ⟨pub, hp, hg⟩ := h
  refine ⟨setDownloaderPublication env ctx objType (pub.Publish safename
    { Safename := safename, DownloadURL := sc.DownloadURL, UseFreeUplinks := false,
      Size := sc.Size, TransportMethod := sc.TransportMethod, Dpath := sc.Dpath,
      ApiKey := sc.ApiKey, Password := sc.Password, ImageSha256 := sc.ImageSha256,
      RefCount := 1 }), ?_, ?_⟩
  · simp [createDownloaderConfig, lookupDownloaderConfig, publishDownloaderConfig, hp, hg,
      DownloaderConfig.Key]
  · refine ⟨_, ?_, downloaderPublication_set env ctx objType _ hs, ?_⟩
    · exact
        { Safename := safename, DownloadURL := sc.DownloadURL, UseFreeUplinks := false,
          Size := sc.Size, TransportMethod := sc.TransportMethod, Dpath := sc.Dpath,
          ApiKey := sc.ApiKey, Password := sc.Password, ImageSha256 := sc.ImageSha256,
          RefCount := 1 }
    · exact ⟨by rw [Publication.get_publish, if_pos rfl], rfl, rfl⟩

theorem create_of_published (env : Env V W) (ctx : zedagentContext V) (objType safename : String)
    (sc : StorageConfig) (k : Nat) (hs : Supported env objType)
    (h : Published env ctx objType safename k) :
    ∃ ctx1, createDownloaderConfig env ctx objType safename sc = some ctx1 ∧
      Published env ctx1 objType safename (k + 1) := by
  obtain ⟨pub, m, hp, hg, hk, hr⟩ := h
  refine ⟨setDownloaderPublication env ctx objType (pub.Publish safename
    { m with RefCount := m.RefCount + 1 }), ?_, ?_⟩
  · have hk' : m.Safename = safename := hk
    simp [createDownloaderConfig, lookupDownloaderConfig, publishDownloaderConfig, hp, hg,
      DownloaderConfig.Key, hk']
  · exact ⟨_, ({ m with RefCount := m.RefCount + 1 } : DownloaderConfig),
      downloaderPublication_set env ctx objType _ hs,
      by rw [Publication.get_publish, if_pos rfl], hk, by simp [hr]⟩

theorem remove_of_published_succ (env : Env V W) (ctx : zedagentContext V)
    (objType safename : String) (k : Nat) (hs : Supported env objType)
    (h : Published env ctx objType safename (k + 2)) :
    ∃ ctx1, removeDownloaderConfig env ctx objType safename = some ctx1 ∧
      Published env ctx1 objType safename (k + 1) := by
  obtain ⟨pub, m, hp, hg, hk, hr⟩ := h
  refine ⟨setDownloaderPublication env ctx objType (pub.Publish safename
    { m with RefCount := m.RefCount - 1 }), ?_, ?_⟩
  · have hk' : m.Safename = safename := hk
    simp [removeDownloaderConfig, lookupDownloaderConfig, publishDownloaderConfig, hp, hg,
      DownloaderConfig.Key, hk', hr]
  · exact ⟨_, ({ m with RefCount := m.RefCount - 1 } : DownloaderConfig),
      downloaderPublication_set env ctx objType _ hs,
      by rw [Publication.get_publish, if_pos rfl], hk, by simp [hr]⟩

theorem remove_of_published_one (env : Env V W) (ctx : zedagentContext V)
    (objType safename : String) (hs : Supported env objType)
    (h : Published env ctx objType safename 1) :
    ∃ ctx1, removeDownloaderConfig env ctx objType safename = some ctx1 ∧
      Unpublished env ctx1 objType safename := by
  obtain ⟨pub, m, hp, hg, hk, hr⟩ := h
  refine ⟨setDownloaderPublication env ctx objType (pub.Unpublish safename), ?_, ?_⟩
  · have hk' : m.Safename = safename := hk
    simp [removeDownloaderConfig, lookupDownloaderConfig, unpublishDownloaderConfig, hp, hg,
      DownloaderConfig.Key, hk', hr]
  · exact ⟨_, downloaderPublication_set env ctx objType _ hs,
      by simp [Publication.get_unpublish]⟩

theorem creates_of_published (env : Env V W) (objType safename : String)
    (hs : Supported env objType) (scs : List StorageConfig) :
    ∀ (ctx : zedagentContext V) (k : Nat), Published env ctx objType safename k →
    ∃ ctx1, createDownloaderConfigs env objType safename scs ctx = some ctx1 ∧
      Published env ctx1 objType safename (k + scs.length) := by
  induction scs with
  | nil => intro ctx k h; exact ⟨ctx, rfl, h⟩
  | cons sc scs ih =>
    intro ctx k h
    obtain ⟨ctx1, h1, hp1⟩ := create_of_published env ctx objType safename sc k hs h
    obtain ⟨ctx2, h2, hp2⟩ := ih ctx1 (k + 1) hp1
    refine ⟨ctx2, ?_, ?_⟩
    · simp [createDownloaderConfigs, h1, h2]
    · have : k + (sc :: scs).length = k + 1 + scs.length := by simp; omega
      rw [this]; exact hp2

theorem removes_of_published (env : Env V W) (objType safename : String)
    (hs : Supported env objType) (n : Nat) :
    ∀ (ctx : zedagentContext V) (k : Nat), Published env ctx objType safename (k + 1 + n) →
    ∃ ctx1, removeDownloaderConfigs env objType safename n ctx = some ctx1 ∧
      Published env ctx1 objType safename (k + 1) := by
  induction n with
  | zero => intro ctx k h; exact ⟨ctx, rfl, h⟩
  | succ n ih =>
    intro ctx k h
    have h' : Published env ctx objType safename (k + n + 2) := by
      have : k + 1 + (n + 1) = k + n + 2 := by omega
      rw [this] at h; exact h
    obtain ⟨ctx1, h1, hp1⟩ := remove_of_published_succ env ctx objType safename (k + n) hs h'
    have hp1' : Published env ctx1 objType safename (k + 1 + n) := by
      have : k + 1 + n = k + n + 1 := by omega
      rw [this]; exact hp1
    obtain ⟨ctx2, h2, hp2⟩ := ih ctx1 k hp1'
    exact ⟨ctx2, by simp [removeDownloaderConfigs, h1, h2], hp2⟩

theorem samePubs_refl (a : zedagentContext V) : SamePubs a a := ⟨rfl, rfl⟩

theorem sameSubs_refl (a : zedagentContext V) : SameSubs a a := ⟨rfl, rfl⟩

theorem samePubs_trans {a b c : zedagentContext V} (h1 : SamePubs a b) (h2 : SamePubs b c) :
    SamePubs a c := ⟨h2.1.trans h1.1, h2.2.trans h1.2⟩

theorem sameSubs_trans {a b c : zedagentContext V} (h1 : SameSubs a b) (h2 : SameSubs b c) :
    SameSubs a c := ⟨h2.1.trans h1.1, h2.2.trans h1.2⟩

theorem setDownloaderPublication_subs (env : Env V W) (ctx : zedagentContext V)
    (objType : String) (pub : Publication DownloaderConfig) :
    SameSubs ctx (setDownloaderPublication env ctx objType pub) ∧
      (setDownloaderPublication env ctx objType pub).verifier = ctx.verifier := by
  unfold setDownloaderPublication SameSubs
  split
  · exact ⟨⟨rfl, rfl⟩, rfl⟩
  · split
    · exact ⟨⟨rfl, rfl⟩, rfl⟩
    · exact ⟨⟨rfl, rfl⟩, rfl⟩

theorem publishDownloaderConfig_subs (env : Env V W) (ctx ctx1 : zedagentContext V)
    (objType : String) (config : DownloaderConfig)
    (h : publishDownloaderConfig env ctx objType config = some ctx1) :
    SameSubs ctx ctx1 ∧ ctx1.verifier = ctx.verifier := by
  unfold publishDownloaderConfig at h
  split at h
  · exact absurd h (by simp)
  · injection h with h
    subst h
    exact setDownloaderPublication_subs env ctx objType _

theorem createDownloaderConfig_subs (env : Env V W) (ctx ctx1 : zedagentContext V)
    (objType safename : String) (sc : StorageConfig)
    (h : createDownloaderConfig env ctx objType safename sc = some ctx1) :
    SameSubs ctx ctx1 ∧ ctx1.verifier = ctx.verifier := by
  unfold createDownloaderConfig at h
  split at h
  · exact absurd h (by simp)
  · exact publishDownloaderConfig_subs env ctx ctx1 objType _ h
  · exact publishDownloaderConfig_subs env ctx ctx1 objType _ h

theorem lookupDownloaderStatus_congr (env : Env V W) (a b : zedagentContext V)
    (objType safename : String) (h : SameSubs a b) :
    lookupDownloaderStatus env b objType safename =
      lookupDownloaderStatus env a objType safename := by
  unfold lookupDownloaderStatus downloaderSubscription
  rw [h.1, h.2]

theorem downloaderPublication_congr (env : Env V W) (a b : zedagentContext V)
    (objType : String) (h : SamePubs a b) :
    downloaderPublication env b objType = downloaderPublication env a objType := by
  unfold downloaderPublication
  rw [h.1, h.2]

theorem checkStorageVerified_frame (env : Env V W) (objType : String) (sc : StorageConfig)
    (vs : VerifyImageStatus) (ctx ctx1 : zedagentContext V) (ret ret1 : RetStatus)
    (ss ss1 : StorageStatus)
    (h : checkStorageVerified env objType sc vs ctx ret ss = some (ctx1, ret1, ss1)) :
    SamePubs ctx ctx1 ∧ SameSubs ctx ctx1 ∧ ss1.HasDownloaderRef = ss.HasDownloaderRef ∧
      ss1.State = vs.State ∧ ss1.HasVerifierRef = true ∧ ss1.Error = ss.Error ∧
      ss1.ErrorTime = ss.ErrorTime := by
  unfold checkStorageVerified at h
  by_cases hv : ss.HasVerifierRef = false
  · simp only [hv, if_true] at h
    cases hc : env.createVerifierConfig ctx.verifier objType vs.Safename sc false with
    | none => simp [hc] at h
    | some r =>
      obtain ⟨v, e⟩ := r
      simp only [hc] at h
      by_cases hst : vs.State = ss.State
      · simp [hst] at h
        obtain ⟨h1, -, h3⟩ := h
        subst h1 h3
        exact ⟨⟨rfl, rfl⟩, ⟨rfl, rfl⟩, rfl, hst.symm, rfl, rfl, rfl⟩
      · simp [hst] at h
        obtain ⟨h1, -, h3⟩ := h
        subst h1 h3
        exact ⟨⟨rfl, rfl⟩, ⟨rfl, rfl⟩, rfl, rfl, rfl, rfl, rfl⟩
  · have hv' : ss.HasVerifierRef = true := by simpa using hv
    simp only [hv', Bool.true_eq_false, if_false] at h
    by_cases hst : vs.State = ss.State
    · simp [hst] at h
      obtain ⟨h1, -, h3⟩ := h
      subst h1 h3
      exact ⟨⟨rfl, rfl⟩, ⟨rfl, rfl⟩, rfl, hst.symm, hv', rfl, rfl⟩
    · simp [hst] at h
      obtain ⟨h1, -, h3⟩ := h
      subst h1 h3
      exact ⟨⟨rfl, rfl⟩, ⟨rfl, rfl⟩, rfl, rfl, rfl, rfl, rfl⟩

theorem checkStorageSwitch_frame (env : Env V W) (objType safename : String)
    (sc : StorageConfig) (ds : DownloaderStatus) (ctx ctx1 : zedagentContext V)
    (ret ret1 : RetStatus) (ss ss1 : StorageStatus)
    (h : checkStorageSwitch env objType safename sc ds ctx ret ss = some (ctx1, ret1, ss1)) :
    SamePubs ctx ctx1 ∧ SameSubs ctx ctx1 ∧ ss1.HasDownloaderRef = ss.HasDownloaderRef ∧
      ss1.State = ss.State ∧
      (ss.State = SwState.INITIAL → ss1.Error = ds.LastErr ∧ ss1.ErrorTime = ds.LastErrTime) := by
  unfold checkStorageSwitch at h
  split at h
  · injection h with h
    injection h with h1 h
    injection h with h2 h3
    subst h1 h3
    exact ⟨⟨rfl, rfl⟩, ⟨rfl, rfl⟩, rfl, rfl, fun _ => ⟨rfl, rfl⟩⟩
  · rename_i hst
    split at h
    · split at h
      · split at h
        · exact absurd h (by simp)
        · injection h with h
          injection h with h1 h
          injection h with h2 h3
          subst h1 h3
          exact ⟨⟨rfl, rfl⟩, ⟨rfl, rfl⟩, rfl, rfl, fun hc => by simp [hst] at hc⟩
        · injection h with h
          injection h with h1 h
          injection h with h2 h3
          subst h1 h3
          exact ⟨⟨rfl, rfl⟩, ⟨rfl, rfl⟩, rfl, rfl, fun hc => by simp [hst] at hc⟩
      · injection h with h
        injection h with h1 h
        injection h with h2 h3
        subst h1 h3
        exact ⟨⟨rfl, rfl⟩, ⟨rfl, rfl⟩, rfl, rfl, fun hc => by simp [hst] at hc⟩
    · injection h with h
      injection h with h1 h
      injection h with h2 h3
      subst h1 h3
      exact ⟨⟨rfl, rfl⟩, ⟨rfl, rfl⟩, rfl, rfl, fun hc => by simp [hst] at hc⟩
  · rename_i hn1 hn2
    injection h with h
    injection h with h1 h
    injection h with h2 h3
    subst h1 h3
    exact ⟨⟨rfl, rfl⟩, ⟨rfl, rfl⟩, rfl, rfl, fun hc => absurd hc hn1⟩

theorem checkStorageResult_frame (env : Env V W) (objType safename : String)
    (sc : StorageConfig) (ctx ctx1 : zedagentContext V) (ret ret1 : RetStatus)
    (ss ss1 : StorageStatus)
    (h : checkStorageResult env objType safename sc ctx ret ss = some (ctx1, ret1, ss1)) :
    SamePubs ctx ctx1 ∧ SameSubs ctx ctx1 ∧ ss1.HasDownloaderRef = ss.HasDownloaderRef ∧
      ((lookupDownloaderStatus env ctx objType safename = some none ∧ ss1 = ss) ∨
        ∃ ds, lookupDownloaderStatus env ctx objType safename = some (some ds) ∧
          ss1.State = ds.State ∧
          (ds.State = SwState.INITIAL →
            ss1.Error = ds.LastErr ∧ ss1.ErrorTime = ds.LastErrTime)) := by
  unfold checkStorageResult at h
  split at h
  · exact absurd h (by simp)
  · rename_i hl
    injection h with h
    injection h with h1 h
    injection h with h2 h3
    subst h1 h3
    exact ⟨⟨rfl, rfl⟩, ⟨rfl, rfl⟩, rfl, Or.inl ⟨hl, rfl⟩⟩
  · rename_i ds hl
    by_cases hst : ds.State = ss.State
    · simp only [hst, ne_eq, not_true_eq_false, if_false] at h
      obtain ⟨hp, hs, hd, hs1, he⟩ := checkStorageSwitch_frame env objType safename sc ds
        ctx ctx1 _ ret1 ss ss1 h
      exact ⟨hp, hs, hd, Or.inr ⟨ds, hl, hs1.trans hst.symm, fun hi => he (hst ▸ hi)⟩⟩
    · simp only [ne_eq, hst, not_false_eq_true, if_true] at h
      obtain ⟨hp, hs, hd, hs1, he⟩ := checkStorageSwitch_frame env objType safename sc ds
        ctx ctx1 _ ret1 _ ss1 h
      exact ⟨hp, hs, hd, Or.inr ⟨ds, hl, hs1, fun hi => he hi⟩⟩

theorem checkStorageDownloader_frame (env : Env V W) (objType safename : String)
    (sc : StorageConfig) (ctx ctx1 : zedagentContext V) (ret ret1 : RetStatus)
    (ss ss1 : StorageStatus)
    (h : checkStorageDownloader env objType safename sc ctx ret ss = some (ctx1, ret1, ss1)) :
    SameSubs ctx ctx1 ∧ ss1.HasDownloaderRef = true ∧
      ((ss.HasDownloaderRef = true ∧ SamePubs ctx ctx1) ∨
        (ss.HasDownloaderRef = false ∧ ∃ ctxm,
          createDownloaderConfig env ctx objType safename sc = some ctxm ∧
            SamePubs ctxm ctx1)) ∧
      ((lookupDownloaderStatus env ctx objType safename = some none ∧
          ss1.State = ss.State ∧ ss1.Error = ss.Error ∧ ss1.ErrorTime = ss.ErrorTime) ∨
        ∃ ds, lookupDownloaderStatus env ctx objType safename = some (some ds) ∧
          ss1.State = ds.State ∧
          (ds.State = SwState.INITIAL →
            ss1.Error = ds.LastErr ∧ ss1.ErrorTime = ds.LastErrTime)) := by
  unfold checkStorageDownloader at h
  by_cases hr : ss.HasDownloaderRef = false
  · simp only [hr, if_true] at h
    cases hc : createDownloaderConfig env ctx objType safename sc with
    | none => simp [hc] at h
    | some ctxm =>
      simp only [hc] at h
      obtain ⟨hp, hs, hd, hx⟩ := checkStorageResult_frame env objType safename sc ctxm ctx1
        _ ret1 _ ss1 h
      have hsm := (createDownloaderConfig_subs env ctx ctxm objType safename sc hc).1
      refine ⟨sameSubs_trans hsm hs, hd, Or.inr ⟨hr, ctxm, rfl, hp⟩, ?_⟩
      rw [lookupDownloaderStatus_congr env ctx ctxm objType safename hsm] at hx
      rcases hx with ⟨hl, he⟩ | hx
      · exact Or.inl ⟨hl, by rw [he], by rw [he], by rw [he]⟩
      · exact Or.inr hx
  · have hr' : ss.HasDownloaderRef = true := by simpa using hr
    simp only [hr', Bool.true_eq_false, if_false] at h
    obtain ⟨hp, hs, hd, hx⟩ := checkStorageResult_frame env objType safename sc ctx ctx1
      ret ret1 ss ss1 h
    refine ⟨hs, hd.trans hr', Or.inl ⟨hr', hp⟩, ?_⟩
    rcases hx with ⟨hl, he⟩ | hx
    · exact Or.inl ⟨hl, by rw [he], by rw [he], by rw [he]⟩
    · exact Or.inr hx

theorem checkStorageDownloadStatusItem_frame (env : Env V W) (objType : String)
    (sc : StorageConfig) (ctx ctx1 : zedagentContext V) (ret ret1 : RetStatus)
    (ss ss1 : StorageStatus)
    (h : checkStorageDownloadStatusItem env objType sc ctx ret ss = some (ctx1, ret1, ss1)) :
    SameSubs ctx ctx1 ∧ RefStep env ctx ctx1 objType sc ss ss1 ∧
      StateStep env ctx objType sc ss ss1 := by
  have hdl : ∀ (hd : checkStorageDownloader env objType
      (env.UrlToSafename sc.DownloadURL sc.ImageSha256) sc ctx ret ss = some (ctx1, ret1, ss1)),
      SameSubs ctx ctx1 ∧ RefStep env ctx ctx1 objType sc ss ss1 ∧
        StateStep env ctx objType sc ss ss1 := by
    intro hd
    obtain ⟨hs, hr1, hr, hx⟩ := checkStorageDownloader_frame env objType _ sc ctx ctx1 ret ret1
      ss ss1 hd
    refine ⟨hs, ?_, ?_⟩
    · rcases hr with ⟨hr, hp⟩ | ⟨hr, ctxm, hc, hp⟩
      · exact Or.inl ⟨hr1.trans hr.symm, hp⟩
      · exact Or.inr ⟨hr, hr1, ctxm, hc, hp⟩
    · rcases hx with ⟨-, hx⟩ | hx
      · exact Or.inl hx
      · exact Or.inr (Or.inr hx)
  unfold checkStorageDownloadStatusItem at h
  by_cases hi : ss.State = SwState.INSTALLED
  · simp only [hi, if_true] at h
    injection h with h
    injection h with h1 h
    injection h with h2 h3
    subst h1 h3
    exact ⟨⟨rfl, rfl⟩, Or.inl ⟨rfl, ⟨rfl, rfl⟩⟩, Or.inl ⟨rfl, rfl, rfl⟩⟩
  · simp only [hi, if_false] at h
    by_cases hsha : sc.ImageSha256 = ""
    · simp only [hsha, ne_eq, not_true_eq_false, if_false] at h
      have := hdl (by simpa only [hsha] using h)
      simpa only [hsha] using this
    · simp only [ne_eq, hsha, not_false_eq_true, if_true] at h
      split at h
      · exact absurd h (by simp)
      · rename_i vs hv
        by_cases hvs : vs.State = SwState.DELIVERED
        · simp only [hvs, if_true] at h
          obtain ⟨hp, hs, hd, hs1, -, he, het⟩ := checkStorageVerified_frame env objType sc vs
            ctx ctx1 ret ret1 ss ss1 h
          exact ⟨hs, Or.inl ⟨hd, hp⟩, Or.inr (Or.inl ⟨hi, hs1.trans hvs, he, het⟩)⟩
        · simp only [hvs, if_false] at h
          exact hdl h
      · exact hdl h

theorem checkStorageDownloadStatusLoop_frame (env : Env V W) (objType : String)
    (config : List StorageConfig) :
    ∀ (status : List StorageStatus) (ctx ctx1 : zedagentContext V) (ret ret1 : RetStatus)
      (status1 : List StorageStatus),
      checkStorageDownloadStatusLoop env objType ctx ret config status =
        some (ctx1, ret1, status1) →
      SameSubs ctx ctx1 ∧ status1.length = status.length ∧
        ∀ (i : Nat) (sc : StorageConfig) (ss ss1 : StorageStatus), config[i]? = some sc →
          status[i]? = some ss → status1[i]? = some ss1 →
          StateStep env ctx objType sc ss ss1 := by
  induction config with
  | nil =>
    intro status ctx ctx1 ret ret1 status1 h
    simp only [checkStorageDownloadStatusLoop] at h
    injection h with h
    injection h with h1 h
    injection h with h2 h3
    subst h1 h3
    exact ⟨⟨rfl, rfl⟩, rfl, fun i sc ss ss1 hc => by simp at hc⟩
  | cons sc0 config ih =>
    intro status ctx ctx1 ret ret1 status1 h
    cases status with
    | nil => simp [checkStorageDownloadStatusLoop] at h
    | cons ss0 status =>
      simp only [checkStorageDownloadStatusLoop] at h
      cases hstep : checkStorageDownloadStatusItem env objType sc0 ctx ret ss0 with
      | none => simp [hstep] at h
      | some r =>
        obtain ⟨ctxa, reta, ssa⟩ := r
        simp only [hstep] at h
        cases hrest : checkStorageDownloadStatusLoop env objType ctxa reta config status with
        | none => simp [hrest] at h
        | some r2 =>
          obtain ⟨ctxb, retb, statusb⟩ := r2
          simp only [hrest] at h
          injection h with h
          injection h with h1 h
          injection h with h2 h3
          subst h1 h3
          obtain ⟨hsa, -, hst⟩ := checkStorageDownloadStatusItem_frame env objType sc0 ctx ctxa
            ret reta ss0 ssa hstep
          obtain ⟨hsb, hlen, hall⟩ := ih status ctxa ctxb reta retb statusb hrest
          refine ⟨sameSubs_trans hsa hsb, by simp [hlen], ?_⟩
          intro i sc ss ss1 hc hs hs1
          cases i with
          | zero =>
            simp only [List.getElem?_cons_zero, Option.some.injEq] at hc hs hs1
            subst hc hs hs1
            exact hst
          | succ i =>
            simp only [List.getElem?_cons_succ] at hc hs hs1
            have := hall i sc ss ss1 hc hs hs1
            unfold StateStep at this ⊢
            rw [lookupDownloaderStatus_congr env ctx ctxa objType _ hsa] at this
            exact this

theorem removes_all_of_published (env : Env V W) (objType safename : String)
    (hs : Supported env objType) (n : Nat) :
    ∀ (ctx : zedagentContext V), Published env ctx objType safename (n + 1) →
    ∃ ctx1, removeDownloaderConfigs env objType safename (n + 1) ctx = some ctx1 ∧
      Unpublished env ctx1 objType safename := by
  induction n with
  | zero =>
    intro ctx h
    obtain ⟨ctx1, h1, hu⟩ := remove_of_published_one env ctx objType safename hs h
    exact ⟨ctx1, by simp [removeDownloaderConfigs, h1], hu⟩
  | succ n ih =>
    intro ctx h
    obtain ⟨ctx1, h1, hp1⟩ := remove_of_published_succ env ctx objType safename n hs h
    obtain ⟨ctx2, h2, hu⟩ := ih ctx1 hp1
    refine ⟨ctx2, ?_, hu⟩
    rw [removeDownloaderConfigs, h1]
    exact h2

theorem publishedRefCount_congr (env : Env V W) (a b : zedagentContext V)
    (objType name : String) (h : SamePubs a b) :
    publishedRefCount env b objType name = publishedRefCount env a objType name := by
  unfold publishedRefCount
  rw [downloaderPublication_congr env a b objType h]

theorem KeysMatch_congr (env : Env V W) (a b : zedagentContext V) (objType : String)
    (h : SamePubs a b) (hk : KeysMatch env a objType) : KeysMatch env b objType := by
  intro pub k c hp hg
  rw [downloaderPublication_congr env a b objType h] at hp
  exact hk pub k c hp hg

theorem createDownloaderConfig_refCount (env : Env V W) (ctx ctx1 : zedagentContext V)
    (objType safename : String) (sc : StorageConfig) (hs : Supported env objType)
    (hk : KeysMatch env ctx objType)
    (h : createDownloaderConfig env ctx objType safename sc = some ctx1) :
    KeysMatch env ctx1 objType ∧
      ∀ name, publishedRefCount env ctx1 objType name =
        publishedRefCount env ctx objType name + (if safename = name then 1 else 0) := by
  obtain ⟨pub, hp⟩ := supported_publication env ctx objType hs
  unfold createDownloaderConfig lookupDownloaderConfig at h
  simp only [hp] at h
  cases hg : pub.Get safename with
  | none =>
    simp only [hg, publishDownloaderConfig, hp, DownloaderConfig.Key, Option.some.injEq] at h
    subst h
    have hp1 := downloaderPublication_set env ctx objType (pub.Publish safename
      { Safename := safename, DownloadURL := sc.DownloadURL, UseFreeUplinks := false,
        Size := sc.Size, TransportMethod := sc.TransportMethod, Dpath := sc.Dpath,
        ApiKey := sc.ApiKey, Password := sc.Password, ImageSha256 := sc.ImageSha256,
        RefCount := 1 }) hs
    constructor
    · intro pub1 k c hpub hget
      rw [hp1] at hpub
      injection hpub with hpub
      subst hpub
      rw [Publication.get_publish] at hget
      by_cases hks : k = safename
      · rw [if_pos hks] at hget
        injection hget with hget
        subst hget
        exact hks.symm
      · rw [if_neg hks] at hget
        exact hk pub k c hp hget
    · intro name
      unfold publishedRefCount
      rw [hp1, hp]
      simp only [Publication.get_publish]
      by_cases hks : name = safename
      · subst hks
        simp [hg]
      · have hks' : ¬ safename = name := fun e => hks e.symm
        simp [hks, hks']
  | some m =>
    have hmk : m.Key = safename := hk pub safename m hp hg
    simp only [hg, hmk, ne_eq, not_true_eq_false, if_false, publishDownloaderConfig, hp,
      Option.some.injEq] at h
    have hkey : DownloaderConfig.Key { m with RefCount := m.RefCount + 1 } = safename := hmk
    rw [hkey] at h
    subst h
    have hp1 := downloaderPublication_set env ctx objType (pub.Publish safename
      { m with RefCount := m.RefCount + 1 }) hs
    constructor
    · intro pub1 k c hpub hget
      rw [hp1] at hpub
      injection hpub with hpub
      subst hpub
      rw [Publication.get_publish] at hget
      by_cases hks : k = safename
      · rw [if_pos hks] at hget
        injection hget with hget
        subst hget
        exact hmk.trans hks.symm
      · rw [if_neg hks] at hget
        exact hk pub k c hp hget
    · intro name
      unfold publishedRefCount
      rw [hp1, hp]
      simp only [Publication.get_publish]
      by_cases hks : name = safename
      · subst hks
        simp [hg]
      · have hks' : ¬ safename = name := fun e => hks e.symm
        simp [hks, hks']

theorem checkStorageDownloadStatusItem_refCount (env : Env V W) (objType : String)
    (sc : StorageConfig) (ctx ctx1 : zedagentContext V) (ret ret1 : RetStatus)
    (ss ss1 : StorageStatus) (hs : Supported env objType) (hk : KeysMatch env ctx objType)
    (h : checkStorageDownloadStatusItem env objType sc ctx ret ss = some (ctx1, ret1, ss1)) :
    KeysMatch env ctx1 objType ∧
      ∀ name, publishedRefCount env ctx1 objType name + heldRefs env name [sc] [ss] =
        publishedRefCount env ctx objType name + heldRefs env name [sc] [ss1] := by
  obtain ⟨-, hr, -⟩ := checkStorageDownloadStatusItem_frame env objType sc ctx ctx1 ret ret1
    ss ss1 h
  rcases hr with ⟨hd, hp⟩ | ⟨hd, hd1, ctxm, hc, hp⟩
  · refine ⟨KeysMatch_congr env ctx ctx1 objType hp hk, fun name => ?_⟩
    rw [publishedRefCount_congr env ctx ctx1 objType name hp]
    simp [heldRefs, hd]
  · obtain ⟨hkm, hcount⟩ := createDownloaderConfig_refCount env ctx ctxm objType _ sc hs hk hc
    refine ⟨KeysMatch_congr env ctxm ctx1 objType hp hkm, fun name => ?_⟩
    rw [publishedRefCount_congr env ctxm ctx1 objType name hp, hcount name]
    simp [heldRefs, hd, hd1]

theorem heldRefs_cons (env : Env V W) (name : String) (sc : StorageConfig)
    (config : List StorageConfig) (ss : StorageStatus) (status : List StorageStatus) :
    heldRefs env name (sc :: config) (ss :: status) =
      heldRefs env name [sc] [ss] + heldRefs env name config status := by
  simp [heldRefs]

theorem checkStorageDownloadStatusLoop_refCount (env : Env V W) (objType : String)
    (hs : Supported env objType) (config : List StorageConfig) :
    ∀ (status : List StorageStatus) (ctx ctx1 : zedagentContext V) (ret ret1 : RetStatus)
      (status1 : List StorageStatus), KeysMatch env ctx objType →
      checkStorageDownloadStatusLoop env objType ctx ret config status =
        some (ctx1, ret1, status1) →
      KeysMatch env ctx1 objType ∧
        ∀ name, publishedRefCount env ctx1 objType name + heldRefs env name config status =
          publishedRefCount env ctx objType name + heldRefs env name config status1 := by
  induction config with
  | nil =>
    intro status ctx ctx1 ret ret1 status1 hk h
    simp only [checkStorageDownloadStatusLoop] at h
    injection h with h
    injection h with h1 h
    injection h with h2 h3
    subst h1 h3
    exact ⟨hk, fun name => rfl⟩
  | cons sc0 config ih =>
    intro status ctx ctx1 ret ret1 status1 hk h
    cases status with
    | nil => simp [checkStorageDownloadStatusLoop] at h
    | cons ss0 status =>
      simp only [checkStorageDownloadStatusLoop] at h
      cases hstep : checkStorageDownloadStatusItem env objType sc0 ctx ret ss0 with
      | none => simp [hstep] at h
      | some r =>
        obtain ⟨ctxa, reta, ssa⟩ := r
        simp only [hstep] at h
        cases hrest : checkStorageDownloadStatusLoop env objType ctxa reta config status with
        | none => simp [hrest] at h
        | some r2 =>
          obtain ⟨ctxb, retb, statusb⟩ := r2
          simp only [hrest] at h
          injection h with h
          injection h with h1 h
          injection h with h2 h3
          subst h1 h3
          obtain ⟨hka, hca⟩ := checkStorageDownloadStatusItem_refCount env objType sc0 ctx ctxa
            ret reta ss0 ssa hs hk hstep
          obtain ⟨hkb, hcb⟩ := ih status ctxa ctxb reta retb statusb hka hrest
          refine ⟨hkb, fun name => ?_⟩
          have e1 := hca name
          have e2 := hcb name
          have e3 := heldRefs_cons env name sc0 config ss0 status
          have e4 := heldRefs_cons env name sc0 config ssa statusb
          omega

theorem checkStorageDownloadStatus_loop (env : Env V W) (ctx ctx1 : zedagentContext V)
    (objType uuidStr : String) (config : List StorageConfig)
    (status status1 : List StorageStatus) (ret : RetStatus)
    (h : checkStorageDownloadStatus env ctx objType uuidStr config status =
      some (ctx1, ret, status1)) :
    ∃ ret0, checkStorageDownloadStatusLoop env objType ctx initRetStatus config status =
        some (ctx1, ret0, status1) ∧
      ret = if ret0.MinState = SwState.MAXSTATE then
        { ret0 with MinState := SwState.DOWNLOADED } else ret0 := by
  unfold checkStorageDownloadStatus at h
  cases hl : checkStorageDownloadStatusLoop env objType ctx initRetStatus config status with
  | none => simp [hl] at h
  | some r0 =>
    obtain ⟨c0, r0, s0⟩ := r0
    simp only [hl] at h
    by_cases hm : r0.MinState = SwState.MAXSTATE
    · simp only [hm, if_true] at h
      injection h with h
      injection h with h1 h
      injection h with h2 h3
      subst h1 h2 h3
      exact ⟨r0, rfl, by simp [hm]⟩
    · simp only [hm, if_false] at h
      injection h with h
      injection h with h1 h
      injection h with h2 h3
      subst h1 h2 h3
      exact ⟨r0, rfl, by simp [hm]⟩

theorem SwState.le_refl_of_eq {a b : SwState} (h : b = a) : a ≤ b := by
  subst h
  exact Nat.le_refl _

theorem SwState.le_delivered {a : SwState} (h1 : a ≠ SwState.INSTALLED)
    (h2 : a ≠ SwState.MAXSTATE) : a ≤ SwState.DELIVERED := by
  cases a
  · exact (by decide : SwState.INITIAL ≤ SwState.DELIVERED)
  · exact (by decide : SwState.DOWNLOAD_STARTED ≤ SwState.DELIVERED)
  · exact (by decide : SwState.DOWNLOADED ≤ SwState.DELIVERED)
  · exact (by decide : SwState.DELIVERED ≤ SwState.DELIVERED)
  · exact absurd rfl h1
  · exact absurd rfl h2

theorem checkStorageDownloadStatusLoop_installed (env : Env V W) (objType : String)
    (config : List StorageConfig) :
    ∀ (status : List StorageStatus) (ctx : zedagentContext V) (ret : RetStatus),
      config.length = status.length → (∀ ss ∈ status, ss.State = SwState.INSTALLED) →
      checkStorageDownloadStatusLoop env objType ctx ret config status =
        some (ctx, if config = [] then ret else { ret with MinState := SwState.INSTALLED },
          status) := by
  induction config with
  | nil =>
    intro status ctx ret _ _
    simp [checkStorageDownloadStatusLoop]
  | cons sc config ih =>
    intro status ctx ret hlen hall
    cases status with
    | nil => simp at hlen
    | cons ss status =>
      have hss : ss.State = SwState.INSTALLED := hall ss (List.mem_cons_self _ _)
      have hrest : ∀ s ∈ status, s.State = SwState.INSTALLED :=
        fun s hs => hall s (List.mem_cons_of_mem _ hs)
      have hlen' : config.length = status.length := by simpa using hlen
      simp only [checkStorageDownloadStatusLoop, checkStorageDownloadStatusItem, hss, if_true,
        ih status ctx _ hlen' hrest]
      by_cases hc : config = []
      · simp [hc]
      · simp [hc]

theorem installDownloadedObject_error (env : Env V W) (w w1 : W) (objType safename : String)
    (config : StorageConfig) (status status1 : StorageStatus) (err : String)
    (h : installDownloadedObject env w objType safename config status =
      some (w1, status1, some err)) :
    status1 = { status with State := SwState.INITIAL, Error := err, ErrorTime := env.now w1 } := by
  unfold installDownloadedObject at h
  split at h
  · simp at h
  · split at h
    · simp at h
    · split at h
      · simp at h
      · simp at h
      · simp only [Option.some.injEq, Prod.mk.injEq] at h
        obtain ⟨h1, h2, h3⟩ := h
        subst h1 h2 h3
        rfl

theorem installDownloadedObjects_spec (env : Env V W) (objType uuidStr : String)
    (config : List StorageConfig) :
    ∀ (status status1 : List StorageStatus) (w w1 : W) (b : Bool),
      config.length = status.length →
      installDownloadedObjects env objType uuidStr w config status = some (w1, status1, b) →
      (b = true ↔ ∀ ss ∈ status1, ss.State = SwState.INSTALLED) := by
  induction config with
  | nil =>
    intro status status1 w w1 b hlen h
    cases status with
    | nil =>
      simp only [installDownloadedObjects, Option.some.injEq, Prod.mk.injEq] at h
      obtain ⟨-, h2, h3⟩ := h
      subst h2 h3
      simp
    | cons ss status => simp at hlen
  | cons sc config ih =>
    intro status status1 w w1 b hlen h
    cases status with
    | nil => simp at hlen
    | cons ss status =>
      have hlen' : config.length = status.length := by simpa using hlen
      simp only [installDownloadedObjects] at h
      cases hone : installDownloadedObject env w objType
          (env.UrlToSafename sc.DownloadURL sc.ImageSha256) sc ss with
      | none => simp [hone] at h
      | some r =>
        obtain ⟨wa, ssa, ea⟩ := r
        simp only [hone] at h
        cases hrest : installDownloadedObjects env objType uuidStr wa config status with
        | none => simp [hrest] at h
        | some r2 =>
          obtain ⟨wb, statusb, bb⟩ := r2
          simp only [hrest, Option.some.injEq, Prod.mk.injEq] at h
          obtain ⟨-, h2, h3⟩ := h
          subst h2 h3
          have hih := ih status statusb wa wb bb hlen' hrest
          by_cases hst : ssa.State = SwState.INSTALLED
          · simp [hst, hih]
          · simp [hst]

theorem sample_keysMatch :
    KeysMatch sampleEnv (sampleCtx (some (sampleRequest "a." 1)) none) "baseOs.obj" := by
  intro pub k c hp hg
  have hp' : pub = (sampleCtx (some (sampleRequest "a." 1)) none).pubBaseOsDownloadConfig := by
    have : downloaderPublication sampleEnv (sampleCtx (some (sampleRequest "a." 1)) none)
        "baseOs.obj" =
      some (sampleCtx (some (sampleRequest "a." 1)) none).pubBaseOsDownloadConfig := rfl
    rw [this] at hp
    injection hp with hp
    exact hp.symm
  subst hp'
  simp only [Publication.Get, sampleCtx, sampleRequest] at hg
  by_cases hk : k = "a."
  · simp only [hk, if_true, Option.some.injEq] at hg
    subst hg
    exact hk.symm
  · simp [hk] at hg

theorem sample_refCount (name : String) :
    publishedRefCount sampleEnv (sampleCtx (some (sampleRequest "a." 1)) none) "baseOs.obj" name =
      heldRefs sampleEnv name [sampleConfig "a" "", sampleConfig "a" ""]
        [sampleStatusRef SwState.DOWNLOAD_STARTED, sampleStatus SwState.INITIAL] := by
  have hp : downloaderPublication sampleEnv (sampleCtx (some (sampleRequest "a." 1)) none)
      "baseOs.obj" =
    some (sampleCtx (some (sampleRequest "a." 1)) none).pubBaseOsDownloadConfig := rfl
  have hn : sampleEnv.UrlToSafename "a" "" = "a." := by decide
  unfold publishedRefCount
  rw [hp]
  simp only [heldRefs, sampleConfig, sampleStatusRef, sampleStatus, hn, Publication.Get,
    sampleCtx, sampleRequest]
  by_cases hk : name = "a."
  · subst hk
    simp
  · have hk' : ¬ "a." = name := fun e => hk e.symm
    simp [hk, hk']

theorem installSource_eq_none_iff (env : Env V W) (objType safename : String)
    (config : StorageConfig) (status : StorageStatus) :
    installSource env objType safename config status = none ↔ InstallNoOp config status := by
  unfold installSource InstallNoOp
  cases hs : status.State <;> simp

theorem installDownloadedObject_of_source (env : Env V W) (w : W) (objType safename : String)
    (config : StorageConfig) (status : StorageStatus) (src : String)
    (h : installSource env objType safename config status = some src) :
    (status.State = SwState.DOWNLOADED ∨ status.State = SwState.DELIVERED) ∧
    installDownloadedObject env w objType safename config status =
      match env.stat w src with
      | some _ => none
      | none =>
        match installPlace env w objType safename src config status with
        | none => none
        | some (w1, none) => some (w1, { status with State := SwState.INSTALLED }, none)
        | some (w1, some err) =>
          some (w1,
            { status with State := SwState.INITIAL, Error := err, ErrorTime := env.now w1 },
            some err) := by
  constructor
  · unfold installSource at h
    cases hs : status.State <;> simp [hs] at h <;> simp
  · unfold installDownloadedObject
    simp only [h]

theorem supported_subscription (env : Env V W) (ctx : zedagentContext V) (objType : String)
    (h : Supported env objType) : ∃ sub, downloaderSubscription env ctx objType = some sub := by
  unfold downloaderSubscription
  rcases h with h | h
  · simp [h]
  · by_cases hb : objType = env.baseOsObj
    · simp [hb]
    · subst h
      simp [hb]

theorem lookupDownloaderConfig_eq (env : Env V W) (ctx : zedagentContext V)
    (objType safename : String) (pub : Publication DownloaderConfig)
    (hp : downloaderPublication env ctx objType = some pub) :
    lookupDownloaderConfig env ctx objType safename =
      some (match pub.Get safename with
        | none => none
        | some c => if c.Key = safename then some c else none) := by
  unfold lookupDownloaderConfig
  simp only [hp]
  cases pub.Get safename with
  | none => rfl
  | some c =>
    by_cases hk : c.Key = safename
    · simp [hk]
    · simp [hk]

theorem lookupDownloaderStatus_eq (env : Env V W) (ctx : zedagentContext V)
    (objType safename : String) (sub : Subscription DownloaderStatus)
    (hp : downloaderSubscription env ctx objType = some sub) :
    lookupDownloaderStatus env ctx objType safename =
      some (match sub.Get safename with
        | none => none
        | some c => if c.Key = safename then some c else none) := by
  unfold lookupDownloaderStatus
  simp only [hp]
  cases sub.Get safename with
  | none => rfl
  | some c =>
    by_cases hk : c.Key = safename
    · simp [hk]
    · simp [hk]

theorem createDownloaderConfig_eq (env : Env V W) (ctx : zedagentContext V)
    (objType safename : String) (sc : StorageConfig) (pub : Publication DownloaderConfig)
    (hp : downloaderPublication env ctx objType = some pub) :
    createDownloaderConfig env ctx objType safename sc =
      some (setDownloaderPublication env ctx objType
        (pub.Publish safename
          (match lookupDownloaderConfig env ctx objType safename with
            | some (some m) => { m with RefCount := m.RefCount + 1 }
            | _ => freshRequest safename sc))) := by
  rw [lookupDownloaderConfig_eq env ctx objType safename pub hp]
  unfold createDownloaderConfig
  rw [lookupDownloaderConfig_eq env ctx objType safename pub hp]
  cases hg : pub.Get safename with
  | none => simp [publishDownloaderConfig, hp, DownloaderConfig.Key, freshRequest]
  | some c =>
    by_cases hk : c.Key = safename
    · have hk' : c.Safename = safename := hk
      simp [hk, publishDownloaderConfig, hp, DownloaderConfig.Key, hk']
    · have hk' : ¬ c.Safename = safename := hk
      simp [hk, publishDownloaderConfig, hp, DownloaderConfig.Key, freshRequest, hk']

theorem removeDownloaderConfig_eq (env : Env V W) (ctx : zedagentContext V)
    (objType safename : String) (pub : Publication DownloaderConfig)
    (hp : downloaderPublication env ctx objType = some pub) :
    removeDownloaderConfig env ctx objType safename =
      match lookupDownloaderConfig env ctx objType safename with
      | some (some m) =>
        if m.RefCount > 1 then
          some (setDownloaderPublication env ctx objType
            (pub.Publish safename { m with RefCount := m.RefCount - 1 }))
        else some (setDownloaderPublication env ctx objType (pub.Unpublish safename))
      | _ => some ctx := by
  rw [lookupDownloaderConfig_eq env ctx objType safename pub hp]
  unfold removeDownloaderConfig
  rw [lookupDownloaderConfig_eq env ctx objType safename pub hp]
  cases hg : pub.Get safename with
  | none => simp
  | some c =>
    by_cases hk : c.Key = safename
    · have hk' : c.Safename = safename := hk
      by_cases hr : c.RefCount > 1
      · simp [hk, hr, publishDownloaderConfig, hp, DownloaderConfig.Key, hk']
      · simp [hk, hr, unpublishDownloaderConfig, hp, DownloaderConfig.Key, hk', hg]
    · simp [hk]

theorem checkStorageResult_initial (env : Env V W) (objType safename : String)
    (sc : StorageConfig) (ctx : zedagentContext V) (ret : RetStatus) (ss : StorageStatus)
    (ds : DownloaderStatus)
    (hds : lookupDownloaderStatus env ctx objType safename = some (some ds))
    (hinit : ds.State = SwState.INITIAL) :
    checkStorageResult env objType safename sc ctx ret ss =
      some (ctx,
        { Changed := true
          MinState := SwState.INITIAL
          AllErrors := env.appendError ret.AllErrors "downloader" ds.LastErr
          ErrorTime := ds.LastErrTime
          WaitingForCerts := ret.WaitingForCerts },
        { ss with State := SwState.INITIAL, Error := ds.LastErr, ErrorTime := ds.LastErrTime }) := by
  unfold checkStorageResult
  simp only [hds, hinit]
  have hmin : (if ret.MinState > SwState.INITIAL then
      ({ ret with MinState := SwState.INITIAL } : RetStatus) else ret).MinState =
        SwState.INITIAL := by
    by_cases hgt : ret.MinState > SwState.INITIAL
    · simp [hgt]
    · simp only [hgt, if_false]
      have : ret.MinState.toNat ≤ 0 := Nat.le_of_not_lt hgt
      cases hm : ret.MinState <;> simp [hm, SwState.toNat] at this
      rfl
  by_cases hst : SwState.INITIAL = ss.State
  · simp only [← hst, ne_eq, not_true_eq_false, if_false]
    unfold checkStorageSwitch
    simp only [← hst]
    by_cases hgt : ret.MinState > SwState.INITIAL
    · simp [hgt]
    · simp only [hgt, if_false] at hmin ⊢
      simp [hmin]
  · simp only [ne_eq, hst, not_false_eq_true, if_true]
    unfold checkStorageSwitch
    simp only
    by_cases hgt : ret.MinState > SwState.INITIAL
    · simp [hgt]
    · simp only [hgt, if_false] at hmin ⊢
      simp [hmin]

theorem createDownloaderConfig_published (env : Env V W) (ctx ctx1 : zedagentContext V)
    (objType safename : String) (sc : StorageConfig) (hsup : Supported env objType)
    (h : createDownloaderConfig env ctx objType safename sc = some ctx1) :
    ∃ k, Published env ctx1 objType safename k ∧ 1 ≤ k := by
  obtain ⟨pub, hp⟩ := supported_publication env ctx objType hsup
  rw [createDownloaderConfig_eq env ctx objType safename sc pub hp,
    lookupDownloaderConfig_eq env ctx objType safename pub hp] at h
  injection h with h
  subst h
  cases hg : pub.Get safename with
  | none =>
    exact ⟨1, ⟨_, freshRequest safename sc, downloaderPublication_set env ctx objType _ hsup,
      by rw [Publication.get_publish, if_pos rfl], rfl, rfl⟩, Nat.le_refl 1⟩
  | some c =>
    by_cases hk : c.Key = safename
    · refine ⟨c.RefCount + 1, ⟨_, ({ c with RefCount := c.RefCount + 1 } : DownloaderConfig),
        downloaderPublication_set env ctx objType _ hsup, ?_, hk, rfl⟩, Nat.le_add_left 1 _⟩
      rw [Publication.get_publish, if_pos rfl]
      simp [hk]
    · refine ⟨1, ⟨_, freshRequest safename sc, downloaderPublication_set env ctx objType _ hsup,
        ?_, rfl, rfl⟩, Nat.le_refl 1⟩
      rw [Publication.get_publish, if_pos rfl]
      simp [hk]

theorem installSource_of_case (env : Env V W) (objType safename src : String)
    (config : StorageConfig) (status : StorageStatus)
    (hcase :
      (status.State = SwState.DOWNLOADED ∧ config.ImageSha256 = "" ∧
        src = env.objectDownloadDirname ++ "/" ++ objType ++ "/pending/" ++ safename) ∨
      (status.State = SwState.DELIVERED ∧
        src = env.objectDownloadDirname ++ "/" ++ objType ++ "/verified/" ++
          config.ImageSha256 ++ "/" ++ env.SafenameToFilename safename)) :
    installSource env objType safename config status = some src := by
  rcases hcase with ⟨h1, h2, h3⟩ | ⟨h1, h3⟩
  · simp [installSource, h1, h2, h3]
  · simp [installSource, h1, h3]

/-! ## A second pass of the reconciler -/

theorem checkStorageSwitch_again (env : Env V W) (hfix : VerifierFixed env)
    (objType safename : String) (sc : StorageConfig) (ds : DownloaderStatus)
    (ctx ctxa ctx1 : zedagentContext V) (r ra r1 : RetStatus) (ss ssa : StorageStatus)
    (h : checkStorageSwitch env objType safename sc ds ctx r ss = some (ctxa, ra, ssa)) :
    ra.MinState = r.MinState ∧
      (ssa.State ≠ SwState.INITIAL → ra.AllErrors = r.AllErrors) ∧
      (ssa.State ≠ SwState.DOWNLOADED → ra.WaitingForCerts = r.WaitingForCerts) ∧
      ∃ ctx2 r2, checkStorageSwitch env objType safename sc ds ctx1 r1 ssa =
          some (ctx2, r2, ssa) ∧
        SamePubs ctx1 ctx2 ∧ SameSubs ctx1 ctx2 ∧ r2.MinState = r1.MinState ∧
        RetAgree r ra r1 r2 := by
  unfold checkStorageSwitch at h
  split at h
  · rename_i hst
    simp only [Option.some.injEq, Prod.mk.injEq] at h
    obtain ⟨-, h2, h3⟩ := h
    subst h2 h3
    refine ⟨rfl, fun hne => absurd hst hne, fun _ => rfl, ?_⟩
    unfold checkStorageSwitch
    simp only [hst]
    exact ⟨_, _, rfl, ⟨rfl, rfl⟩, ⟨rfl, rfl⟩, rfl,
      fun he => by simp [he], fun hw => hw⟩
  · rename_i hst
    by_cases hsha : sc.ImageSha256 = ""
    · simp only [hsha, ne_eq, not_true_eq_false, if_false, Option.some.injEq,
        Prod.mk.injEq] at h
      obtain ⟨-, h2, h3⟩ := h
      subst h2 h3
      refine ⟨rfl, fun _ => rfl, fun _ => rfl, ?_⟩
      unfold checkStorageSwitch
      simp only [hst, hsha, ne_eq, not_true_eq_false, if_false]
      exact ⟨_, _, rfl, ⟨rfl, rfl⟩, ⟨rfl, rfl⟩, rfl, fun he => he, fun hw => hw⟩
    · simp only [ne_eq, hsha, not_false_eq_true, if_true] at h
      by_cases hv : ss.HasVerifierRef = false
      · simp only [hv, if_true] at h
        cases hc : env.createVerifierConfig ctx.verifier objType safename sc true with
        | none => simp [hc] at h
        | some p =>
          obtain ⟨v, e⟩ := p
          have hdet := hfix.2 ctx.verifier ctx1.verifier objType safename sc true
          rw [hc] at hdet
          cases hc1 : env.createVerifierConfig ctx1.verifier objType safename sc true with
          | none => simp [hc1] at hdet
          | some p1 =>
            obtain ⟨v1, e1⟩ := p1
            simp only [hc1, Option.map_some', Option.some.injEq] at hdet
            subst hdet
            cases e1 with
            | none =>
              simp only [hc, Option.some.injEq, Prod.mk.injEq] at h
              obtain ⟨-, h2, h3⟩ := h
              subst h2 h3
              refine ⟨rfl, fun _ => rfl, fun _ => rfl, ?_⟩
              unfold checkStorageSwitch
              simp only [hst, ne_eq, hsha, not_false_eq_true, if_true, Bool.true_eq_false,
                if_false]
              exact ⟨_, _, rfl, ⟨rfl, rfl⟩, ⟨rfl, rfl⟩, rfl, fun he => he, fun hw => hw⟩
            | some err =>
              simp only [hc, Option.some.injEq, Prod.mk.injEq] at h
              obtain ⟨-, h2, h3⟩ := h
              subst h2 h3
              refine ⟨rfl, fun _ => rfl, fun hne => absurd hst hne, ?_⟩
              unfold checkStorageSwitch
              simp only [hst, ne_eq, hsha, not_false_eq_true, if_true, hv, hc1]
              exact ⟨_, _, rfl, ⟨rfl, rfl⟩, ⟨rfl, rfl⟩, rfl, fun he => he, fun _ => rfl⟩
      · have hv' : ss.HasVerifierRef = true := by simpa using hv
        simp only [hv', Bool.true_eq_false, if_false, Option.some.injEq, Prod.mk.injEq] at h
        obtain ⟨-, h2, h3⟩ := h
        subst h2 h3
        refine ⟨rfl, fun _ => rfl, fun _ => rfl, ?_⟩
        unfold checkStorageSwitch
        simp only [hst, ne_eq, hsha, not_false_eq_true, if_true, hv', Bool.true_eq_false,
          if_false]
        exact ⟨_, _, rfl, ⟨rfl, rfl⟩, ⟨rfl, rfl⟩, rfl, fun he => he, fun hw => hw⟩
  · rename_i hn1 hn2
    simp only [Option.some.injEq, Prod.mk.injEq] at h
    obtain ⟨-, h2, h3⟩ := h
    subst h2 h3
    refine ⟨rfl, fun _ => rfl, fun _ => rfl, ?_⟩
    have hsw : checkStorageSwitch env objType safename sc ds ctx1 r1 ss = some (ctx1, r1, ss) := by
      unfold checkStorageSwitch
      split
      · rename_i hst
        exact absurd hst hn1
      · rename_i hst
        exact absurd hst hn2
      · rfl
    exact ⟨_, _, hsw, ⟨rfl, rfl⟩, ⟨rfl, rfl⟩, rfl, fun he => he, fun hw => hw⟩

theorem checkStorageResult_again (env : Env V W) (hfix : VerifierFixed env)
    (objType safename : String) (sc : StorageConfig)
    (ctx ctxa ctx1 : zedagentContext V) (r ra r1 : RetStatus) (ss ssa : StorageStatus)
    (hsub : SameSubs ctx ctx1)
    (h : checkStorageResult env objType safename sc ctx r ss = some (ctxa, ra, ssa)) :
    (ssa.State ≠ SwState.INITIAL → ra.AllErrors = r.AllErrors) ∧
      (ssa.State ≠ SwState.DOWNLOADED → ra.WaitingForCerts = r.WaitingForCerts) ∧
      ∃ ctx2 r2, checkStorageResult env objType safename sc ctx1 r1 ssa =
          some (ctx2, r2, ssa) ∧
        SamePubs ctx1 ctx2 ∧ SameSubs ctx1 ctx2 ∧
        (r1.MinState = r.MinState → r2.MinState = ra.MinState) ∧
        RetAgree r ra r1 r2 := by
  have hlk := lookupDownloaderStatus_congr env ctx ctx1 objType safename hsub
  unfold checkStorageResult at h
  cases hl : lookupDownloaderStatus env ctx objType safename with
  | none => simp [hl] at h
  | some o =>
    cases o with
    | none =>
      simp only [hl, Option.some.injEq, Prod.mk.injEq] at h
      obtain ⟨-, h2, h3⟩ := h
      subst h2 h3
      refine ⟨fun _ => rfl, fun _ => rfl, ctx1, { r1 with MinState := SwState.DOWNLOAD_STARTED },
        ?_, ⟨rfl, rfl⟩, ⟨rfl, rfl⟩, fun _ => rfl, fun he => he, fun hw => hw⟩
      unfold checkStorageResult
      rw [hlk, hl]
    | some ds =>
      simp only [hl] at h
      have key : ∀ (ra0 : RetStatus) (ss0 : StorageStatus),
          ra0.AllErrors = r.AllErrors → ra0.WaitingForCerts = r.WaitingForCerts →
          ra0.MinState = (if r.MinState > ds.State then ds.State else r.MinState) →
          ss0.State = ds.State →
          checkStorageSwitch env objType safename sc ds ctx ra0 ss0 = some (ctxa, ra, ssa) →
          (ssa.State ≠ SwState.INITIAL → ra.AllErrors = r.AllErrors) ∧
          (ssa.State ≠ SwState.DOWNLOADED → ra.WaitingForCerts = r.WaitingForCerts) ∧
          ∃ ctx2 r2, checkStorageResult env objType safename sc ctx1 r1 ssa =
              some (ctx2, r2, ssa) ∧
            SamePubs ctx1 ctx2 ∧ SameSubs ctx1 ctx2 ∧
            (r1.MinState = r.MinState → r2.MinState = ra.MinState) ∧
            RetAgree r ra r1 r2 := by
        intro ra0 ss0 he hw hm hst hsw
        have hframe := checkStorageSwitch_frame env objType safename sc ds ctx ctxa ra0 ra ss0
          ssa hsw
        have hssa : ssa.State = ds.State := hframe.2.2.2.1.trans hst
        obtain ⟨hmin, hae, hwc, ctx2, r2, hrun, hp, hs, hm2, hag⟩ :=
          checkStorageSwitch_again env hfix objType safename sc ds ctx ctxa ctx1 ra0 ra
            (if r1.MinState > ds.State then { r1 with MinState := ds.State } else r1) ss0 ssa hsw
        refine ⟨fun hne => (hae hne).trans he, fun hne => (hwc hne).trans hw, ctx2, r2, ?_, hp,
          hs, ?_, ?_, ?_⟩
        · unfold checkStorageResult
          rw [hlk, hl]
          simp only [hssa, ne_eq, not_true_eq_false, if_false]
          exact hrun
        · intro hm1
          rw [hm2, hmin, hm]
          by_cases hgt : r1.MinState > ds.State
          · have hgt' : r.MinState > ds.State := hm1 ▸ hgt
            simp [hgt, hgt']
          · have hgt' : ¬ r.MinState > ds.State := hm1 ▸ hgt
            simp [hgt, hgt', hm1]
        · intro h1
          apply hag.1
          by_cases hgt : r1.MinState > ds.State
          · simp [hgt, h1, he]
          · simp [hgt, h1, he]
        · intro h1
          apply hag.2
          by_cases hgt : r1.MinState > ds.State
          · simp [hgt, h1, hw]
          · simp [hgt, h1, hw]
      by_cases hst : ds.State = ss.State
      · simp only [hst, ne_eq, not_true_eq_false, if_false] at h
        refine key _ ss ?_ ?_ ?_ hst.symm (by simpa only [hst] using h)
        · by_cases hgt : r.MinState > ss.State <;> simp [hgt]
        · by_cases hgt : r.MinState > ss.State <;> simp [hgt]
        · by_cases hgt : r.MinState > ss.State <;> simp [hgt, hst]
      · simp only [ne_eq, hst, not_false_eq_true, if_true] at h
        refine key _ _ ?_ ?_ ?_ rfl h
        · by_cases hgt : r.MinState > ds.State <;> simp [hgt]
        · by_cases hgt : r.MinState > ds.State <;> simp [hgt]
        · by_cases hgt : r.MinState > ds.State <;> simp [hgt]

theorem checkStorageDownloader_again (env : Env V W) (hfix : VerifierFixed env)
    (objType safename : String) (sc : StorageConfig)
    (ctx ctxa ctx1 : zedagentContext V) (r ra r1 : RetStatus) (ss ssa : StorageStatus)
    (hsub : SameSubs ctx ctx1)
    (h : checkStorageDownloader env objType safename sc ctx r ss = some (ctxa, ra, ssa)) :
    (ssa.State ≠ SwState.INITIAL → ra.AllErrors = r.AllErrors) ∧
      (ssa.State ≠ SwState.DOWNLOADED → ra.WaitingForCerts = r.WaitingForCerts) ∧
      ∃ ctx2 r2, checkStorageDownloader env objType safename sc ctx1 r1 ssa =
          some (ctx2, r2, ssa) ∧
        SamePubs ctx1 ctx2 ∧ SameSubs ctx1 ctx2 ∧
        (r1.MinState = r.MinState → r2.MinState = ra.MinState) ∧
        RetAgree r ra r1 r2 := by
  have href : ssa.HasDownloaderRef = true :=
    (checkStorageDownloader_frame env objType safename sc ctx ctxa r ra ss ssa h).2.1
  have hsecond : checkStorageDownloader env objType safename sc ctx1 r1 ssa =
      checkStorageResult env objType safename sc ctx1 r1 ssa := by
    unfold checkStorageDownloader
    simp [href]
  rw [hsecond]
  unfold checkStorageDownloader at h
  by_cases hr : ss.HasDownloaderRef = false
  · simp only [hr, if_true] at h
    cases hc : createDownloaderConfig env ctx objType safename sc with
    | none => simp [hc] at h
    | some ctxm =>
      simp only [hc] at h
      have hsm := (createDownloaderConfig_subs env ctx ctxm objType safename sc hc).1
      have hsub' : SameSubs ctxm ctx1 :=
        ⟨hsub.1.trans hsm.1.symm, hsub.2.trans hsm.2.symm⟩
      obtain ⟨hae, hwc, ctx2, r2, hrun, hp, hs, hm, hag⟩ :=
        checkStorageResult_again env hfix objType safename sc ctxm ctxa ctx1 _ ra r1 _ ssa
          hsub' h
      exact ⟨hae, hwc, ctx2, r2, hrun, hp, hs, hm, hag⟩
  · have hr' : ss.HasDownloaderRef = true := by simpa using hr
    simp only [hr', Bool.true_eq_false, if_false] at h
    exact checkStorageResult_again env hfix objType safename sc ctx ctxa ctx1 r ra r1 ss ssa
      hsub h

theorem checkStorageVerified_again (env : Env V W) (objType : String) (sc : StorageConfig)
    (vs : VerifyImageStatus) (ctx ctxa ctx1 : zedagentContext V) (r ra r1 : RetStatus)
    (ss ssa : StorageStatus)
    (h : checkStorageVerified env objType sc vs ctx r ss = some (ctxa, ra, ssa)) :
    ra.AllErrors = r.AllErrors ∧ ra.WaitingForCerts = r.WaitingForCerts ∧
      ∃ r2, checkStorageVerified env objType sc vs ctx1 r1 ssa = some (ctx1, r2, ssa) ∧
        (r1.MinState = r.MinState → r2.MinState = ra.MinState) ∧
        r2.AllErrors = r1.AllErrors ∧ r2.WaitingForCerts = r1.WaitingForCerts := by
  obtain ⟨-, -, -, hst, hv, -, -⟩ := checkStorageVerified_frame env objType sc vs ctx ctxa r ra
    ss ssa h
  have hsecond : checkStorageVerified env objType sc vs ctx1 r1 ssa =
      some (ctx1, (if r1.MinState > vs.State then { r1 with MinState := vs.State } else r1),
        ssa) := by
    unfold checkStorageVerified
    simp [hv, hst]
  have hfirst : ra.AllErrors = r.AllErrors ∧ ra.WaitingForCerts = r.WaitingForCerts ∧
      ra.MinState = (if r.MinState > vs.State then vs.State else r.MinState) := by
    unfold checkStorageVerified at h
    by_cases hvr : ss.HasVerifierRef = false
    · simp only [hvr, if_true] at h
      cases hc : env.createVerifierConfig ctx.verifier objType vs.Safename sc false with
      | none => simp [hc] at h
      | some p =>
        obtain ⟨v, e⟩ := p
        simp only [hc] at h
        by_cases hgt : r.MinState > vs.State
        · simp only [hgt, if_true] at h ⊢
          split_ifs at h <;>
            (simp only [Option.some.injEq, Prod.mk.injEq] at h
             obtain ⟨-, h2, -⟩ := h
             subst h2
             exact ⟨rfl, rfl, rfl⟩)
        · simp only [hgt, if_false] at h ⊢
          split_ifs at h <;>
            (simp only [Option.some.injEq, Prod.mk.injEq] at h
             obtain ⟨-, h2, -⟩ := h
             subst h2
             exact ⟨rfl, rfl, rfl⟩)
    · have hvr' : ss.HasVerifierRef = true := by simpa using hvr
      simp only [hvr', Bool.true_eq_false, if_false] at h
      by_cases hgt : r.MinState > vs.State
      · simp only [hgt, if_true] at h ⊢
        split_ifs at h <;>
          (simp only [Option.some.injEq, Prod.mk.injEq] at h
           obtain ⟨-, h2, -⟩ := h
           subst h2
           exact ⟨rfl, rfl, rfl⟩)
      · simp only [hgt, if_false] at h ⊢
        split_ifs at h <;>
          (simp only [Option.some.injEq, Prod.mk.injEq] at h
           obtain ⟨-, h2, -⟩ := h
           subst h2
           exact ⟨rfl, rfl, rfl⟩)
  refine ⟨hfirst.1, hfirst.2.1, _, hsecond, ?_, ?_, ?_⟩
  · intro hm
    rw [hfirst.2.2]
    by_cases hgt : r1.MinState > vs.State
    · have hgt' : r.MinState > vs.State := hm ▸ hgt
      simp [hgt, hgt']
    · have hgt' : ¬ r.MinState > vs.State := hm ▸ hgt
      simp [hgt, hgt', hm]
  · by_cases hgt : r1.MinState > vs.State <;> simp [hgt]
  · by_cases hgt : r1.MinState > vs.State <;> simp [hgt]

theorem checkStorageDownloadStatusItem_again (env : Env V W) (hfix : VerifierFixed env)
    (objType : String) (sc : StorageConfig)
    (ctx ctxa ctx1 : zedagentContext V) (r ra r1 : RetStatus) (ss ssa : StorageStatus)
    (hsub : SameSubs ctx ctx1)
    (h : checkStorageDownloadStatusItem env objType sc ctx r ss = some (ctxa, ra, ssa)) :
    ∃ ctx2 r2, checkStorageDownloadStatusItem env objType sc ctx1 r1 ssa =
        some (ctx2, r2, ssa) ∧
      SamePubs ctx1 ctx2 ∧ SameSubs ctx1 ctx2 ∧ RetAgree r ra r1 r2 ∧
      (r1.MinState = r.MinState → (ssa.State = SwState.INSTALLED → ss.State = SwState.INSTALLED) →
        r2.MinState = ra.MinState) := by
  have hdl : ss.State ≠ SwState.INSTALLED →
      checkStorageDownloadStatusItem env objType sc ctx1 r1 ssa =
        (if ssa.State = SwState.INSTALLED then some (ctx1, { r1 with MinState := ssa.State }, ssa)
          else checkStorageDownloader env objType
            (env.UrlToSafename sc.DownloadURL sc.ImageSha256) sc ctx1 r1 ssa) →
      checkStorageDownloader env objType (env.UrlToSafename sc.DownloadURL sc.ImageSha256) sc
        ctx r ss = some (ctxa, ra, ssa) →
      ∃ ctx2 r2, checkStorageDownloadStatusItem env objType sc ctx1 r1 ssa =
          some (ctx2, r2, ssa) ∧
        SamePubs ctx1 ctx2 ∧ SameSubs ctx1 ctx2 ∧ RetAgree r ra r1 r2 ∧
        (r1.MinState = r.MinState →
          (ssa.State = SwState.INSTALLED → ss.State = SwState.INSTALLED) →
          r2.MinState = ra.MinState) := by
    intro hni hitem hd
    obtain ⟨hae, hwc, ctx2, r2, hrun, hp, hs, hm, hag⟩ :=
      checkStorageDownloader_again env hfix objType _ sc ctx ctxa ctx1 r ra r1 ss ssa hsub hd
    by_cases hi : ssa.State = SwState.INSTALLED
    · rw [if_pos hi] at hitem
      refine ⟨ctx1, _, hitem, ⟨rfl, rfl⟩, ⟨rfl, rfl⟩, ⟨?_, ?_⟩, ?_⟩
      · intro he
        exact he.trans (hae (by rw [hi]; decide)).symm
      · intro hw
        exact hw.trans (hwc (by rw [hi]; decide)).symm
      · intro _ himp
        exact absurd (himp hi) hni
    · rw [if_neg hi] at hitem
      exact ⟨ctx2, r2, hitem.trans hrun, hp, hs, hag, fun hm1 _ => hm hm1⟩
  unfold checkStorageDownloadStatusItem at h
  by_cases hi : ss.State = SwState.INSTALLED
  · simp only [hi, if_true, Option.some.injEq, Prod.mk.injEq] at h
    obtain ⟨-, h2, h3⟩ := h
    subst h2 h3
    refine ⟨ctx1, { r1 with MinState := SwState.INSTALLED }, ?_, ⟨rfl, rfl⟩, ⟨rfl, rfl⟩,
      ⟨fun he => he, fun hw => hw⟩, fun _ _ => rfl⟩
    unfold checkStorageDownloadStatusItem
    simp [hi]
  · simp only [hi, if_false] at h
    by_cases hsha : sc.ImageSha256 = ""
    · simp only [hsha, ne_eq, not_true_eq_false, if_false] at h
      refine hdl hi ?_ (by simpa only [hsha] using h)
      unfold checkStorageDownloadStatusItem
      simp only [hsha, ne_eq, not_true_eq_false, if_false]
    · simp only [ne_eq, hsha, not_false_eq_true, if_true] at h
      have hlook := hfix.1 ctx.verifier ctx1.verifier objType
        (env.UrlToSafename sc.DownloadURL sc.ImageSha256) sc.ImageSha256
      cases hl : env.lookupVerificationStatusAny ctx.verifier objType
          (env.UrlToSafename sc.DownloadURL sc.ImageSha256) sc.ImageSha256 with
      | none => simp [hl] at h
      | some o =>
        rw [hl] at hlook
        cases o with
        | none =>
          simp only [hl] at h
          refine hdl hi ?_ h
          unfold checkStorageDownloadStatusItem
          simp only [ne_eq, hsha, not_false_eq_true, if_true, hlook]
        | some vs =>
          simp only [hl] at h
          by_cases hvs : vs.State = SwState.DELIVERED
          · simp only [hvs, if_true] at h
            obtain ⟨-, -, -, hst, -, -, -⟩ := checkStorageVerified_frame env objType sc vs ctx
              ctxa r ra ss ssa h
            obtain ⟨hae, hwc, r2, hrun, hm, he2, hw2⟩ := checkStorageVerified_again env objType
              sc vs ctx ctxa ctx1 r ra r1 ss ssa h
            have hni : ssa.State ≠ SwState.INSTALLED := by
              rw [hst, hvs]
              decide
            refine ⟨ctx1, r2, ?_, ⟨rfl, rfl⟩, ⟨rfl, rfl⟩, ⟨?_, ?_⟩, fun hm1 _ => hm hm1⟩
            · unfold checkStorageDownloadStatusItem
              simp only [hni, if_false, ne_eq, hsha, not_false_eq_true, if_true, hlook, hvs]
              exact hrun
            · intro he
              rw [he2, he, hae]
            · intro hw
              rw [hw2, hw, hwc]
          · simp only [hvs, if_false] at h
            refine hdl hi ?_ h
            unfold checkStorageDownloadStatusItem
            simp only [ne_eq, hsha, not_false_eq_true, if_true, hlook, hvs, if_false]

theorem checkStorageDownloadStatusLoop_again (env : Env V W) (hfix : VerifierFixed env)
    (objType : String) (config : List StorageConfig) :
    ∀ (status statusF : List StorageStatus) (ctx ctxF ctx1 : zedagentContext V)
      (r rF r1 : RetStatus), SameSubs ctx ctx1 →
      checkStorageDownloadStatusLoop env objType ctx r config status =
        some (ctxF, rF, statusF) →
      ∃ ctx2 r2, checkStorageDownloadStatusLoop env objType ctx1 r1 config statusF =
          some (ctx2, r2, statusF) ∧
        SamePubs ctx1 ctx2 ∧ SameSubs ctx1 ctx2 ∧ RetAgree r rF r1 r2 ∧
        (r1.MinState = r.MinState → NoNewInstalled config status statusF →
          r2.MinState = rF.MinState) := by
  induction config with
  | nil =>
    intro status statusF ctx ctxF ctx1 r rF r1 _ h
    simp only [checkStorageDownloadStatusLoop, Option.some.injEq, Prod.mk.injEq] at h
    obtain ⟨-, h2, h3⟩ := h
    subst h2 h3
    exact ⟨ctx1, r1, by simp [checkStorageDownloadStatusLoop], ⟨rfl, rfl⟩, ⟨rfl, rfl⟩,
      ⟨fun he => he, fun hw => hw⟩, fun hm _ => hm⟩
  | cons sc config ih =>
    intro status statusF ctx ctxF ctx1 r rF r1 hsub h
    cases status with
    | nil => simp [checkStorageDownloadStatusLoop] at h
    | cons ss status =>
      simp only [checkStorageDownloadStatusLoop] at h
      cases hstep : checkStorageDownloadStatusItem env objType sc ctx r ss with
      | none => simp [hstep] at h
      | some p =>
        obtain ⟨ctxa, ra, ssa⟩ := p
        simp only [hstep] at h
        cases hrest : checkStorageDownloadStatusLoop env objType ctxa ra config status with
        | none => simp [hrest] at h
        | some p2 =>
          obtain ⟨ctxb, rb, statusb⟩ := p2
          simp only [hrest, Option.some.injEq, Prod.mk.injEq] at h
          obtain ⟨-, h2, h3⟩ := h
          subst h2 h3
          have hsa := (checkStorageDownloadStatusItem_frame env objType sc ctx ctxa r ra ss ssa
            hstep).1
          obtain ⟨ctx2, r2, hrun, hp, hs, hag, hm⟩ := checkStorageDownloadStatusItem_again env
            hfix objType sc ctx ctxa ctx1 r ra r1 ss ssa hsub hstep
          have hsub2 : SameSubs ctxa ctx2 :=
            ⟨(hs.1.trans hsub.1).trans hsa.1.symm, (hs.2.trans hsub.2).trans hsa.2.symm⟩
          obtain ⟨ctx3, r3, hrun3, hp3, hs3, hag3, hm3⟩ := ih status statusb ctxa ctxb ctx2 ra
            rb r2 hsub2 hrest
          refine ⟨ctx3, r3, ?_, samePubs_trans hp hp3, sameSubs_trans hs hs3, ⟨?_, ?_⟩, ?_⟩
          · simp only [checkStorageDownloadStatusLoop, hrun, hrun3]
          · intro he
            exact hag3.1 (hag.1 he)
          · intro hw
            exact hag3.2 (hag.2 hw)
          · intro hm1 hnew
            exact hm3 (hm hm1 hnew.1) hnew.2

/-- A second pass right after a first one, with the download results and the verifier
side held fixed: it returns, leaves every item and both request channels as the first
pass left them, and returns the same `AllErrors` and `WaitingForCerts`; it returns the
same `MinState` when no item reached `INSTALLED` during the first pass. -/
theorem checkStorageDownloadStatus_second_pass (env : Env V W) (hfix : VerifierFixed env)
    (ctx ctx1 : zedagentContext V) (objType uuidStr : String) (config : List StorageConfig)
    (status status1 : List StorageStatus) (ret1 : RetStatus)
    (h : checkStorageDownloadStatus env ctx objType uuidStr config status =
      some (ctx1, ret1, status1)) :
    ∃ ctx2 ret2, checkStorageDownloadStatus env ctx1 objType uuidStr config status1 =
        some (ctx2, ret2, status1) ∧
      ctx2.pubBaseOsDownloadConfig = ctx1.pubBaseOsDownloadConfig ∧
      ctx2.pubCertObjDownloadConfig = ctx1.pubCertObjDownloadConfig ∧
      ret2.AllErrors = ret1.AllErrors ∧ ret2.WaitingForCerts = ret1.WaitingForCerts ∧
      (NoNewInstalled config status status1 → ret2.MinState = ret1.MinState) := by
  obtain ⟨ret0, hl, hret⟩ := checkStorageDownloadStatus_loop env ctx ctx1 objType uuidStr config
    status status1 ret1 h
  have hsub := (checkStorageDownloadStatusLoop_frame env objType config status ctx ctx1
    initRetStatus ret0 status1 hl).1
  obtain ⟨ctx2, r2, hrun, hp, -, hag, hm⟩ := checkStorageDownloadStatusLoop_again env hfix
    objType config status status1 ctx ctx1 ctx1 initRetStatus ret0 initRetStatus hsub hl
  have he := hag.1 rfl
  have hw := hag.2 rfl
  refine ⟨ctx2, if r2.MinState = SwState.MAXSTATE then
    { r2 with MinState := SwState.DOWNLOADED } else r2, ?_, hp.1, hp.2, ?_, ?_, ?_⟩
  · unfold checkStorageDownloadStatus
    simp only [hrun]
    split_ifs <;> rfl
  · rw [hret]
    split_ifs <;> simp [he]
  · rw [hret]
    split_ifs <;> simp [hw]
  · intro hnew
    have hmin := hm rfl hnew
    rw [hret, hmin]
    split_ifs <;> simp [hmin]

theorem sampleEnv_verifierFixed : VerifierFixed sampleEnv :=
  ⟨fun _ _ _ _ _ => rfl, fun _ _ _ _ _ _ => rfl⟩

/-! ## The installer step by step, and installed items -/

theorem installDownloadedObject_eq_finish (env : Env V W) (w : W)
    (objType safename src : String) (config : StorageConfig) (status : StorageStatus)
    (hsrc : installSource env objType safename config status = some src)
    (hstat : env.stat w src = none) :
    installDownloadedObject env w objType safename config status =
      installFinish env status (installPlace env w objType safename src config status) := by
  unfold installDownloadedObject
  simp only [hsrc, hstat]
  cases installPlace env w objType safename src config status with
  | none => rfl
  | some p =>
    obtain ⟨w1, e⟩ := p
    cases e <;> rfl

theorem installDownloadedObject_trace_agree (env : Env V W) (w : W)
    (objType safename : String) (config : StorageConfig) (status : StorageStatus) :
    installDownloadedObject env w objType safename config status =
      (installDownloadedObjectTrace env w objType safename config status).2.2.map
        (fun r => (r.1, (installDownloadedObjectTrace env w objType safename config status).2.1,
          r.2)) := by
  unfold installDownloadedObject installDownloadedObjectTrace
  cases installSource env objType safename config status with
  | none => rfl
  | some src =>
    simp only
    cases env.stat w src with
    | some _ => rfl
    | none =>
      simp only
      cases installPlace env w objType safename src config status with
      | none => rfl
      | some p =>
        obtain ⟨w1, e⟩ := p
        cases e <;> rfl

theorem installDownloadedObjectTrace_of_missing (env : Env V W) (w : W)
    (objType safename src e : String) (config : StorageConfig) (status : StorageStatus)
    (hsrc : installSource env objType safename config status = some src)
    (hstat : env.stat w src = some e) :
    installDownloadedObjectTrace env w objType safename config status =
      ([InstallCall.stat src], status, none) := by
  unfold installDownloadedObjectTrace
  simp only [hsrc, hstat]

theorem installDownloadedObjectTrace_of_present (env : Env V W) (w : W)
    (objType safename src : String) (config : StorageConfig) (status : StorageStatus)
    (hsrc : installSource env objType safename config status = some src)
    (hstat : env.stat w src = none) :
    ∃ rest, (installDownloadedObjectTrace env w objType safename config status).1 =
      InstallCall.stat src ::
        (installPlaceCalls env objType safename src config ++ rest) := by
  unfold installDownloadedObjectTrace
  simp only [hsrc, hstat]
  cases installPlace env w objType safename src config status with
  | none => exact ⟨[], by simp⟩
  | some p =>
    obtain ⟨w1, e⟩ := p
    cases e with
    | none => exact ⟨[], by simp⟩
    | some err => exact ⟨[InstallCall.timeNow], rfl⟩

theorem installPlace_cases (env : Env V W) (w : W) (objType safename src : String)
    (config : StorageConfig) (status : StorageStatus) :
    (config.FinalObjDir = "" →
      installPlace env w objType safename src config status =
        some (w, some ("installDownloadedObject " ++ safename ++ ", final dir not set " ++
          objType ++ "\n"))) ∧
    (config.FinalObjDir ≠ "" → objType = env.certObj →
      installPlace env w objType safename src config status =
        env.installCertObject w src config.FinalObjDir safename) ∧
    (config.FinalObjDir ≠ "" → objType ≠ env.certObj → objType = env.baseOsObj →
      installPlace env w objType safename src config status =
        env.installBaseOsObject w src config.FinalObjDir) ∧
    (config.FinalObjDir ≠ "" → objType ≠ env.certObj → objType ≠ env.baseOsObj →
      installPlace env w objType safename src config status = some (w, some status.Error)) := by
  unfold installPlace
  refine ⟨?_, ?_, ?_, ?_⟩
  · intro h
    simp only [h, ne_eq, not_true_eq_false, if_false]
  · intro h hc
    simp only [ne_eq, h, not_false_eq_true, if_true]
    rw [if_pos hc]
  · intro h hc hb
    simp only [ne_eq, h, not_false_eq_true, if_true]
    rw [if_neg hc, if_pos hb]
  · intro h hc hb
    simp only [ne_eq, h, not_false_eq_true, if_true]
    rw [if_neg hc, if_neg hb]

theorem checkStorageDownloadStatusItem_installed_fixed (env : Env V W) (objType : String)
    (sc : StorageConfig) (ctx ctx1 : zedagentContext V) (ret ret1 : RetStatus)
    (ss ss1 : StorageStatus) (hi : ss.State = SwState.INSTALLED)
    (h : checkStorageDownloadStatusItem env objType sc ctx ret ss = some (ctx1, ret1, ss1)) :
    ss1 = ss := by
  unfold checkStorageDownloadStatusItem at h
  simp only [hi, if_true, Option.some.injEq, Prod.mk.injEq] at h
  exact h.2.2.symm

theorem checkStorageDownloadStatusLoop_installed_fixed (env : Env V W) (objType : String)
    (config : List StorageConfig) :
    ∀ (status : List StorageStatus) (ctx ctx1 : zedagentContext V) (ret ret1 : RetStatus)
      (status1 : List StorageStatus),
      checkStorageDownloadStatusLoop env objType ctx ret config status =
        some (ctx1, ret1, status1) →
      ∀ (i : Nat) (sc : StorageConfig) (ss ss1 : StorageStatus), config[i]? = some sc →
        status[i]? = some ss → status1[i]? = some ss1 → ss.State = SwState.INSTALLED →
        ss1 = ss := by
  induction config with
  | nil =>
    intro status ctx ctx1 ret ret1 status1 _ i sc ss ss1 hc
    simp at hc
  | cons sc0 config ih =>
    intro status ctx ctx1 ret ret1 status1 h
    cases status with
    | nil => simp [checkStorageDownloadStatusLoop] at h
    | cons ss0 status =>
      simp only [checkStorageDownloadStatusLoop] at h
      cases hstep : checkStorageDownloadStatusItem env objType sc0 ctx ret ss0 with
      | none => simp [hstep] at h
      | some p =>
        obtain ⟨ctxa, reta, ssa⟩ := p
        simp only [hstep] at h
        cases hrest : checkStorageDownloadStatusLoop env objType ctxa reta config status with
        | none => simp [hrest] at h
        | some p2 =>
          obtain ⟨ctxb, retb, statusb⟩ := p2
          simp only [hrest, Option.some.injEq, Prod.mk.injEq] at h
          obtain ⟨-, -, h3⟩ := h
          subst h3
          intro i sc ss ss1 hc hs hs1 hi
          cases i with
          | zero =>
            simp only [List.getElem?_cons_zero, Option.some.injEq] at hc hs hs1
            subst hc hs hs1
            exact checkStorageDownloadStatusItem_installed_fixed env objType sc0 ctx ctxa ret
              reta ss0 ssa hi hstep
          | succ i =>
            simp only [List.getElem?_cons_succ] at hc hs hs1
            exact ih status ctxa ctxb reta retb statusb hrest i sc ss ss1 hc hs hs1 hi

/-! ## The properties -/

/-- C1. The claim is that `MinState` is the minimum of the states observed in the pass,
`DOWNLOADED` for artifacts observed at `DOWNLOADED`, `DELIVERED`, `INSTALLED`. The code
assigns the state of an installed item to `MinState` instead of taking the minimum
(line 155): with a first artifact mirrored at `DOWNLOADED`, a second one taking the verified
shortcut at `DELIVERED` and a third one already `INSTALLED`, the pass returns
`MinState = INSTALLED`. -/
theorem checkStorageDownloadStatus_minState_overwritten_by_installed :
    (checkStorageDownloadStatus sampleEnv
        (sampleCtx none (some (sampleResult "a." SwState.DOWNLOADED))) "baseOs.obj" "uuid"
        [sampleConfig "a" "", sampleConfig "b" "D1", sampleConfig "c" ""]
        [sampleStatus SwState.INITIAL, sampleStatus SwState.INITIAL,
          sampleStatus SwState.INSTALLED]).map
      (fun r => (r.2.2.map (fun ss => ss.State), r.2.1.MinState)) =
    some ([SwState.DOWNLOADED, SwState.DELIVERED, SwState.INSTALLED], SwState.INSTALLED) := by
  decide

/-- C2. For a supported object kind and a safe name under which nothing is published,
`N ≥ 1` calls of `createDownloaderConfig` (one per config of `scs`) all return; `N` calls
of `removeDownloaderConfig` after them leave nothing published under the safe name, and
`N - 1` calls leave the request published with `RefCount = 1`. -/
theorem createDownloaderConfig_removeDownloaderConfig_balanced (env : Env V W)
    (ctx : zedagentContext V) (objType safename : String) (scs : List StorageConfig)
    (hs : Supported env objType) (hu : Unpublished env ctx objType safename)
    (hN : 1 ≤ scs.length) :
    ∃ ctx1, createDownloaderConfigs env objType safename scs ctx = some ctx1 ∧
      (∃ ctx2, removeDownloaderConfigs env objType safename scs.length ctx1 = some ctx2 ∧
        Unpublished env ctx2 objType safename) ∧
      (∃ ctx2, removeDownloaderConfigs env objType safename (scs.length - 1) ctx1 = some ctx2 ∧
        Published env ctx2 objType safename 1) := by
  cases scs with
  | nil => simp at hN
  | cons sc scs =>
    obtain ⟨ctxa, ha, hpa⟩ := create_of_unpublished env ctx objType safename sc hs hu
    obtain ⟨ctx1, h1, hp1⟩ := creates_of_published env objType safename hs scs ctxa 1 hpa
    have hp1' : Published env ctx1 objType safename (0 + 1 + scs.length) := by
      simpa using hp1
    obtain ⟨ctx2, h2, hp2⟩ := removes_of_published env objType safename hs scs.length ctx1 0 hp1'
    obtain ⟨ctx3, h3, hp3⟩ := removes_all_of_published env objType safename hs scs.length ctx1
      (by simpa [Nat.add_comm] using hp1)
    exact ⟨ctx1, by simp [createDownloaderConfigs, ha, h1], ⟨ctx3, by simpa using h3, hp3⟩,
      ⟨ctx2, by simpa using h2, by simpa using hp2⟩⟩

/-- C2 at three acquires on the empty base-OS channel. -/
theorem createDownloaderConfig_removeDownloaderConfig_balanced_witness :
    Supported sampleEnv "baseOs.obj" ∧
    Unpublished sampleEnv (sampleCtx none none) "baseOs.obj" "a." ∧
    1 ≤ [sampleConfig "a" "", sampleConfig "a" "", sampleConfig "a" ""].length ∧
    ∃ ctx1, createDownloaderConfigs sampleEnv "baseOs.obj" "a."
        [sampleConfig "a" "", sampleConfig "a" "", sampleConfig "a" ""] (sampleCtx none none) =
          some ctx1 ∧
      (∃ ctx2, removeDownloaderConfigs sampleEnv "baseOs.obj" "a." 3 ctx1 = some ctx2 ∧
        Unpublished sampleEnv ctx2 "baseOs.obj" "a.") ∧
      (∃ ctx2, removeDownloaderConfigs sampleEnv "baseOs.obj" "a." (3 - 1) ctx1 = some ctx2 ∧
        Published sampleEnv ctx2 "baseOs.obj" "a." 1) :=
  ⟨Or.inl rfl, ⟨_, rfl, rfl⟩, by decide,
    createDownloaderConfig_removeDownloaderConfig_balanced sampleEnv (sampleCtx none none)
      "baseOs.obj" "a." [sampleConfig "a" "", sampleConfig "a" "", sampleConfig "a" ""]
      (Or.inl rfl) ⟨_, rfl, rfl⟩ (by decide)⟩

/-- C3. The claim is that a download result with a pending flag set is skipped by the pass.
The reconciler never reads the pending flags (lines 201-248), unlike
`updateDownloaderStatus` (lines 71-75): with a result that has `PendingModify` set and
reports `INITIAL` with an error, the pass moves the item from `DOWNLOAD_STARTED` to
`INITIAL`, copies the error and its time into the item, and returns
`MinState = INITIAL` with the error in `AllErrors` and `ErrorTime`. -/
theorem checkStorageDownloadStatus_mirrors_pending_result :
    (checkStorageDownloadStatus sampleEnv
        (sampleCtx (some (sampleRequest "a." 1))
          (some { sampleResult "a." SwState.INITIAL with
            PendingModify := true, LastErr := "half written", LastErrTime := 5 }))
        "baseOs.obj" "uuid" [sampleConfig "a" ""]
        [sampleStatusRef SwState.DOWNLOAD_STARTED]).map (fun r => (r.2.2, r.2.1)) =
    some ([{ sampleStatusRef SwState.INITIAL with Error := "half written", ErrorTime := 5 }],
      { Changed := true
        MinState := SwState.INITIAL
        AllErrors := "downloader: half written\n\n"
        ErrorTime := 5
        WaitingForCerts := false }) := by
  decide

/-- C4, the claim as stated fails. An item at `DOWNLOADED` whose download result
reports `DOWNLOAD_STARTED` is moved back to `DOWNLOAD_STARTED`, a lower state that is not
`INITIAL`. -/
theorem checkStorageDownloadStatus_regresses_to_download_started :
    (checkStorageDownloadStatus sampleEnv
        (sampleCtx (some (sampleRequest "a." 1))
          (some (sampleResult "a." SwState.DOWNLOAD_STARTED)))
        "baseOs.obj" "uuid" [sampleConfig "a" ""]
        [sampleStatusRef SwState.DOWNLOADED]).map (fun r => r.2.2) =
      some [sampleStatusRef SwState.DOWNLOAD_STARTED] ∧
    ¬ ((sampleStatusRef SwState.DOWNLOADED).State ≤
        (sampleStatusRef SwState.DOWNLOAD_STARTED).State) ∧
    (sampleStatusRef SwState.DOWNLOAD_STARTED).State ≠ SwState.INITIAL := by
  decide

/-- C4, amended. After a pass that returns, for items in one of the five lifecycle states:
an item that was `INSTALLED` is left exactly as it was, and every item has a state at least
its state before the pass, or else it was not `INSTALLED` and its state is the lower state
of the download result found under its safe name; when that state is `INITIAL`, `Error` and
`ErrorTime` are the `LastErr` and `LastErrTime` of that result. The status slice keeps its
length. -/
theorem checkStorageDownloadStatus_state_forward_or_mirrored (env : Env V W)
    (ctx ctx1 : zedagentContext V) (objType uuidStr : String) (config : List StorageConfig)
    (status status1 : List StorageStatus) (ret : RetStatus)
    (hlife : ∀ ss ∈ status, ss.State ≠ SwState.MAXSTATE)
    (h : checkStorageDownloadStatus env ctx objType uuidStr config status =
      some (ctx1, ret, status1)) :
    status1.length = status.length ∧
      ∀ (i : Nat) (sc : StorageConfig) (ss ss1 : StorageStatus), config[i]? = some sc →
        status[i]? = some ss → status1[i]? = some ss1 →
        (ss.State = SwState.INSTALLED → ss1 = ss) ∧
        (ss.State ≤ ss1.State ∨
          (ss.State ≠ SwState.INSTALLED ∧
            ∃ ds, lookupDownloaderStatus env ctx objType
                (env.UrlToSafename sc.DownloadURL sc.ImageSha256) = some (some ds) ∧
              ds.State < ss.State ∧ ss1.State = ds.State ∧
              (ss1.State = SwState.INITIAL →
                ss1.Error = ds.LastErr ∧ ss1.ErrorTime = ds.LastErrTime))) := by
  obtain ⟨ret0, hl, -⟩ := checkStorageDownloadStatus_loop env ctx ctx1 objType uuidStr config
    status status1 ret h
  obtain ⟨-, hlen, hall⟩ := checkStorageDownloadStatusLoop_frame env objType config status ctx
    ctx1 initRetStatus ret0 status1 hl
  have hfixed := checkStorageDownloadStatusLoop_installed_fixed env objType config status ctx
    ctx1 initRetStatus ret0 status1 hl
  refine ⟨hlen, ?_⟩
  intro i sc ss ss1 hc hs hs1
  refine ⟨fun hi => hfixed i sc ss ss1 hc hs hs1 hi, ?_⟩
  by_cases hi : ss.State = SwState.INSTALLED
  · have := hfixed i sc ss ss1 hc hs hs1 hi
    subst this
    exact Or.inl (Nat.le_refl _)
  · rcases hall i sc ss ss1 hc hs hs1 with ⟨he, -⟩ | ⟨hni, hd, -⟩ | ⟨ds, hlk, hst, herr⟩
    · exact Or.inl (SwState.le_refl_of_eq he)
    · left
      rw [hd]
      exact SwState.le_delivered hni (hlife ss (List.getElem?_mem hs))
    · by_cases hlt : ds.State < ss.State
      · exact Or.inr ⟨hi, ds, hlk, hlt, hst, fun h0 => herr (hst ▸ h0)⟩
      · left
        rw [hst]
        exact Nat.le_of_not_lt hlt

/-- C4 amended, at an item that is moved back from `DOWNLOADED` to `DOWNLOAD_STARTED` and
an installed item that is left as it was. -/
theorem checkStorageDownloadStatus_state_forward_or_mirrored_witness :
    (∀ ss ∈ [sampleStatusRef SwState.DOWNLOADED, sampleStatus SwState.INSTALLED],
      ss.State ≠ SwState.MAXSTATE) ∧
    checkStorageDownloadStatus sampleEnv
        (sampleCtx (some (sampleRequest "a." 1))
          (some (sampleResult "a." SwState.DOWNLOAD_STARTED)))
        "baseOs.obj" "uuid" [sampleConfig "a" "", sampleConfig "a" ""]
        [sampleStatusRef SwState.DOWNLOADED, sampleStatus SwState.INSTALLED] =
      some (sampleCtx (some (sampleRequest "a." 1))
          (some (sampleResult "a." SwState.DOWNLOAD_STARTED)),
        { initRetStatus with MinState := SwState.INSTALLED, Changed := true },
        [sampleStatusRef SwState.DOWNLOAD_STARTED, sampleStatus SwState.INSTALLED]) ∧
    ((sampleStatusRef SwState.DOWNLOADED).State ≤ (sampleStatusRef SwState.DOWNLOAD_STARTED).State ∨
      ((sampleStatusRef SwState.DOWNLOADED).State ≠ SwState.INSTALLED ∧
        ∃ ds, lookupDownloaderStatus sampleEnv
            (sampleCtx (some (sampleRequest "a." 1))
              (some (sampleResult "a." SwState.DOWNLOAD_STARTED))) "baseOs.obj"
            (sampleEnv.UrlToSafename (sampleConfig "a" "").DownloadURL
              (sampleConfig "a" "").ImageSha256) = some (some ds) ∧
          ds.State < (sampleStatusRef SwState.DOWNLOADED).State ∧
          (sampleStatusRef SwState.DOWNLOAD_STARTED).State = ds.State ∧
          ((sampleStatusRef SwState.DOWNLOAD_STARTED).State = SwState.INITIAL →
            (sampleStatusRef SwState.DOWNLOAD_STARTED).Error = ds.LastErr ∧
              (sampleStatusRef SwState.DOWNLOAD_STARTED).ErrorTime = ds.LastErrTime))) ∧
    ((sampleStatus SwState.INSTALLED).State = SwState.INSTALLED →
      sampleStatus SwState.INSTALLED = sampleStatus SwState.INSTALLED) :=
  ⟨by decide, rfl,
    ((checkStorageDownloadStatus_state_forward_or_mirrored sampleEnv
      (sampleCtx (some (sampleRequest "a." 1)) (some (sampleResult "a." SwState.DOWNLOAD_STARTED)))
      (sampleCtx (some (sampleRequest "a." 1)) (some (sampleResult "a." SwState.DOWNLOAD_STARTED)))
      "baseOs.obj" "uuid" [sampleConfig "a" "", sampleConfig "a" ""]
      [sampleStatusRef SwState.DOWNLOADED, sampleStatus SwState.INSTALLED]
      [sampleStatusRef SwState.DOWNLOAD_STARTED, sampleStatus SwState.INSTALLED]
      { initRetStatus with MinState := SwState.INSTALLED, Changed := true }
      (by decide) rfl).2 0 (sampleConfig "a" "") (sampleStatusRef SwState.DOWNLOADED)
      (sampleStatusRef SwState.DOWNLOAD_STARTED) rfl rfl rfl).2,
    ((checkStorageDownloadStatus_state_forward_or_mirrored sampleEnv
      (sampleCtx (some (sampleRequest "a." 1)) (some (sampleResult "a." SwState.DOWNLOAD_STARTED)))
      (sampleCtx (some (sampleRequest "a." 1)) (some (sampleResult "a." SwState.DOWNLOAD_STARTED)))
      "baseOs.obj" "uuid" [sampleConfig "a" "", sampleConfig "a" ""]
      [sampleStatusRef SwState.DOWNLOADED, sampleStatus SwState.INSTALLED]
      [sampleStatusRef SwState.DOWNLOAD_STARTED, sampleStatus SwState.INSTALLED]
      { initRetStatus with MinState := SwState.INSTALLED, Changed := true }
      (by decide) rfl).2 1 (sampleConfig "a" "") (sampleStatus SwState.INSTALLED)
      (sampleStatus SwState.INSTALLED) rfl rfl rfl).1⟩

/-- C5. For a supported object kind and a request channel in which every record is stored
under its own key: if for every safe name the published `RefCount` (`0` when unpublished)
is the number of items of the list that hold a download reference and whose config maps to
that safe name, then the same holds after `checkStorageDownloadStatus`, and the channel
still stores every record under its own key. Processing an item whose `HasDownloaderRef`
is already true leaves every published `RefCount` as it was and the flag true. -/
theorem checkStorageDownloadStatus_refCount_consistent (env : Env V W)
    (ctx ctx1 : zedagentContext V) (objType uuidStr : String) (config : List StorageConfig)
    (status status1 : List StorageStatus) (ret : RetStatus)
    (hs : Supported env objType) (hk : KeysMatch env ctx objType)
    (hinv : ∀ name, publishedRefCount env ctx objType name = heldRefs env name config status)
    (h : checkStorageDownloadStatus env ctx objType uuidStr config status =
      some (ctx1, ret, status1)) :
    (∀ name, publishedRefCount env ctx1 objType name = heldRefs env name config status1) ∧
      KeysMatch env ctx1 objType ∧
      ∀ (sc : StorageConfig) (ss ss' : StorageStatus) (c c' : zedagentContext V)
        (r r' : RetStatus), ss.HasDownloaderRef = true →
        checkStorageDownloadStatusItem env objType sc c r ss = some (c', r', ss') →
        ss'.HasDownloaderRef = true ∧
          ∀ name, publishedRefCount env c' objType name = publishedRefCount env c objType name := by
  obtain ⟨ret0, hl, -⟩ := checkStorageDownloadStatus_loop env ctx ctx1 objType uuidStr config
    status status1 ret h
  obtain ⟨hk1, hcount⟩ := checkStorageDownloadStatusLoop_refCount env objType hs config status
    ctx ctx1 initRetStatus ret0 status1 hk hl
  refine ⟨?_, hk1, ?_⟩
  · intro name
    have e1 := hcount name
    have e2 := hinv name
    omega
  · intro sc ss ss' c c' r r' href hstep
    obtain ⟨-, hr, -⟩ := checkStorageDownloadStatusItem_frame env objType sc c c' r r' ss ss' hstep
    rcases hr with ⟨hd, hp⟩ | ⟨hd, -⟩
    · exact ⟨hd.trans href, fun name => publishedRefCount_congr env c c' objType name hp⟩
    · rw [href] at hd
      exact absurd hd (by simp)

/-- C5 at two artifacts with the same safe name, the first holding the only reference:
the pass acquires a second one for the other item and the count becomes two. -/
theorem checkStorageDownloadStatus_refCount_consistent_witness :
    Supported sampleEnv "baseOs.obj" ∧
    KeysMatch sampleEnv (sampleCtx (some (sampleRequest "a." 1)) none) "baseOs.obj" ∧
    (∀ name, publishedRefCount sampleEnv (sampleCtx (some (sampleRequest "a." 1)) none)
        "baseOs.obj" name =
      heldRefs sampleEnv name [sampleConfig "a" "", sampleConfig "a" ""]
        [sampleStatusRef SwState.DOWNLOAD_STARTED, sampleStatus SwState.INITIAL]) ∧
    (∀ name, publishedRefCount sampleEnv
        { sampleCtx (some (sampleRequest "a." 1)) none with
          pubBaseOsDownloadConfig :=
            (sampleCtx (some (sampleRequest "a." 1)) none).pubBaseOsDownloadConfig.Publish "a."
              (sampleRequest "a." 2) }
        "baseOs.obj" name =
      heldRefs sampleEnv name [sampleConfig "a" "", sampleConfig "a" ""]
        [sampleStatusRef SwState.DOWNLOAD_STARTED, sampleStatusRef SwState.INITIAL]) :=
  ⟨Or.inl rfl, sample_keysMatch, sample_refCount,
    (checkStorageDownloadStatus_refCount_consistent sampleEnv
      (sampleCtx (some (sampleRequest "a." 1)) none)
      { sampleCtx (some (sampleRequest "a." 1)) none with
        pubBaseOsDownloadConfig :=
          (sampleCtx (some (sampleRequest "a." 1)) none).pubBaseOsDownloadConfig.Publish "a."
            (sampleRequest "a." 2) }
      "baseOs.obj" "uuid" [sampleConfig "a" "", sampleConfig "a" ""]
      [sampleStatusRef SwState.DOWNLOAD_STARTED, sampleStatus SwState.INITIAL]
      [sampleStatusRef SwState.DOWNLOAD_STARTED, sampleStatusRef SwState.INITIAL]
      { initRetStatus with MinState := SwState.DOWNLOAD_STARTED, Changed := true }
      (Or.inl rfl) sample_keysMatch sample_refCount rfl).1⟩

/-- C6. For an artifact with a non-empty digest, a fresh item (`INITIAL`, no verifier and no
downloader reference) and a verify result in state `DELIVERED`, with the verifier request
created, the loop body sets `HasVerifierRef` and the state `DELIVERED`, reports
`Changed = true`, and changes nothing of the context but the verifier state: no download
request is published and `HasDownloaderRef` stays false. A pass over this single artifact
returns `Changed = true` and `MinState = DELIVERED`. -/
theorem checkStorageDownloadStatus_verified_shortcut (env : Env V W) (objType uuidStr : String)
    (sc : StorageConfig) (ctx : zedagentContext V) (ret : RetStatus) (ss : StorageStatus)
    (vs : VerifyImageStatus) (v1 : V) (e : Option String)
    (hsha : sc.ImageSha256 ≠ "")
    (hfresh : ss.State = SwState.INITIAL ∧ ss.HasVerifierRef = false ∧
      ss.HasDownloaderRef = false)
    (hvs : env.lookupVerificationStatusAny ctx.verifier objType
      (env.UrlToSafename sc.DownloadURL sc.ImageSha256) sc.ImageSha256 = some (some vs))
    (hdel : vs.State = SwState.DELIVERED)
    (hcreate : env.createVerifierConfig ctx.verifier objType vs.Safename sc false =
      some (v1, e)) :
    checkStorageDownloadStatusItem env objType sc ctx ret ss =
        some ({ ctx with verifier := v1 },
          { ret with
            Changed := true
            MinState := if ret.MinState > SwState.DELIVERED then SwState.DELIVERED
              else ret.MinState },
          { ss with HasVerifierRef := true, State := SwState.DELIVERED }) ∧
      checkStorageDownloadStatus env ctx objType uuidStr [sc] [ss] =
        some ({ ctx with verifier := v1 },
          { Changed := true
            MinState := SwState.DELIVERED
            AllErrors := ""
            ErrorTime := 0
            WaitingForCerts := false },
          [{ ss with HasVerifierRef := true, State := SwState.DELIVERED }]) ∧
      ({ ss with HasVerifierRef := true, State := SwState.DELIVERED } :
        StorageStatus).HasDownloaderRef = false := by
  obtain ⟨h1, h2, h3⟩ := hfresh
  have hitem : ∀ r : RetStatus, checkStorageDownloadStatusItem env objType sc ctx r ss =
      some ({ ctx with verifier := v1 },
        { r with
          Changed := true
          MinState := if r.MinState > SwState.DELIVERED then SwState.DELIVERED
            else r.MinState },
        { ss with HasVerifierRef := true, State := SwState.DELIVERED }) := by
    intro r
    unfold checkStorageDownloadStatusItem
    simp only [h1, hsha, hvs, hdel, ne_eq, not_false_eq_true, if_true, reduceCtorEq, if_false]
    unfold checkStorageVerified
    simp only [h2, hcreate, hdel, if_true, h1, ne_eq, reduceCtorEq, not_false_eq_true]
    by_cases hm : r.MinState > SwState.DELIVERED
    · simp [hm]
    · simp [hm]
  refine ⟨hitem ret, ?_, h3⟩
  unfold checkStorageDownloadStatus
  simp only [checkStorageDownloadStatusLoop, hitem initRetStatus]
  have hlt : SwState.DELIVERED < SwState.MAXSTATE := by decide
  simp [initRetStatus, hlt]

/-- C6 at the sample artifact with digest `D1`. -/
theorem checkStorageDownloadStatus_verified_shortcut_witness :
    (sampleConfig "b" "D1").ImageSha256 ≠ "" ∧
    (checkStorageDownloadStatus sampleEnv (sampleCtx none none) "baseOs.obj" "uuid"
        [sampleConfig "b" "D1"] [sampleStatus SwState.INITIAL]).map (fun r => (r.2.1, r.2.2)) =
      some ({ Changed := true
              MinState := SwState.DELIVERED
              AllErrors := ""
              ErrorTime := 0
              WaitingForCerts := false },
        [{ sampleStatus SwState.INITIAL with
            HasVerifierRef := true, State := SwState.DELIVERED }]) :=
  ⟨by decide,
    congrArg (Option.map (fun r => (r.2.1, r.2.2)))
      (checkStorageDownloadStatus_verified_shortcut sampleEnv "baseOs.obj" "uuid"
        (sampleConfig "b" "D1") (sampleCtx none none) initRetStatus
        (sampleStatus SwState.INITIAL)
        { Safename := "other.D1", State := SwState.DELIVERED } 1 none
        (by decide) ⟨rfl, rfl, rfl⟩ rfl rfl rfl).2.1⟩

/-- C7. For a non-empty list of artifacts whose items are all `INSTALLED`, whatever the
object kind and the environment, the pass returns the context and the status slice
unchanged, with `Changed = false`, `MinState = INSTALLED`, empty `AllErrors` and
`WaitingForCerts = false`. -/
theorem checkStorageDownloadStatus_all_installed (env : Env V W) (ctx : zedagentContext V)
    (objType uuidStr : String) (config : List StorageConfig) (status : List StorageStatus)
    (hne : config ≠ []) (hlen : config.length = status.length)
    (hall : ∀ ss ∈ status, ss.State = SwState.INSTALLED) :
    checkStorageDownloadStatus env ctx objType uuidStr config status =
      some (ctx,
        { Changed := false
          MinState := SwState.INSTALLED
          AllErrors := ""
          ErrorTime := 0
          WaitingForCerts := false },
        status) := by
  unfold checkStorageDownloadStatus
  rw [checkStorageDownloadStatusLoop_installed env objType config status ctx initRetStatus hlen
    hall]
  simp [hne, initRetStatus]

/-- C7 at two installed items and an object kind that has no channels. -/
theorem checkStorageDownloadStatus_all_installed_witness :
    [sampleConfig "a" "", sampleConfig "b" "D1"] ≠ [] ∧
    [sampleConfig "a" "", sampleConfig "b" "D1"].length =
      [sampleStatus SwState.INSTALLED, sampleStatusRef SwState.INSTALLED].length ∧
    (∀ ss ∈ [sampleStatus SwState.INSTALLED, sampleStatusRef SwState.INSTALLED],
      ss.State = SwState.INSTALLED) ∧
    checkStorageDownloadStatus sampleEnv (sampleCtx none none) "unknown.obj" "uuid"
        [sampleConfig "a" "", sampleConfig "b" "D1"]
        [sampleStatus SwState.INSTALLED, sampleStatusRef SwState.INSTALLED] =
      some (sampleCtx none none,
        { Changed := false
          MinState := SwState.INSTALLED
          AllErrors := ""
          ErrorTime := 0
          WaitingForCerts := false },
        [sampleStatus SwState.INSTALLED, sampleStatusRef SwState.INSTALLED]) :=
  ⟨by decide, by decide, by decide,
    checkStorageDownloadStatus_all_installed sampleEnv (sampleCtx none none) "unknown.obj" "uuid"
      [sampleConfig "a" "", sampleConfig "b" "D1"]
      [sampleStatus SwState.INSTALLED, sampleStatusRef SwState.INSTALLED]
      (by decide) (by decide) (by decide)⟩

/-- C8. The claim is that every failed placement leaves a non-empty `Error` describing the
failure. For an object kind without policy the code builds the message and then creates
the error from the previous `status.Error` (line 346): for an item without earlier error
the call returns an error with empty text and leaves `State = INITIAL`, `Error = ""`,
`ErrorTime` set. -/
theorem installDownloadedObject_unsupported_kind_empty_error :
    (installDownloadedObject sampleEnv () "other.obj" "a." (sampleConfig "a" "")
        (sampleStatusRef SwState.DOWNLOADED)).map (fun r => (r.2.1, r.2.2)) =
    some ({ sampleStatusRef SwState.INITIAL with Error := "", ErrorTime := 7 }, some "") := by
  decide

/-- C9, the claim as stated fails. A fresh artifact is reconciled through the download
path (reference count 1), its installation fails (state `INITIAL`, `HasDownloaderRef` still
true), and the next pass leaves the reference count at 1: the request is neither published
anew nor incremented; the pass mirrors the download result again. -/
theorem installRetryTrace_keeps_refCount :
    installRetryTrace =
      some (some 1,
        { sampleStatusRef SwState.INITIAL with Error := "rename failed", ErrorTime := 7 },
        some 1, SwState.DOWNLOADED) := by
  decide

/-- C9, amended. For an artifact that holds a download reference and whose installation
failed in `installDownloadedObject`, the item is at `INITIAL` and still has
`HasDownloaderRef = true`, and the next pass does not call `createDownloaderConfig` for
it: processing the artifact leaves both download request channels as they were and the flag
true. -/
theorem checkStorageDownloadStatus_keeps_reference_after_failed_install (env : Env V W)
    (w w1 : W) (objType : String) (sc : StorageConfig) (ss0 ss ss1 : StorageStatus)
    (err : String) (ctx ctx1 : zedagentContext V) (ret ret1 : RetStatus)
    (href : ss0.HasDownloaderRef = true)
    (hinst : installDownloadedObject env w objType
      (env.UrlToSafename sc.DownloadURL sc.ImageSha256) sc ss0 = some (w1, ss, some err))
    (hpass : checkStorageDownloadStatusItem env objType sc ctx ret ss = some (ctx1, ret1, ss1)) :
    ss.State = SwState.INITIAL ∧ ss.HasDownloaderRef = true ∧
      ctx1.pubBaseOsDownloadConfig = ctx.pubBaseOsDownloadConfig ∧
      ctx1.pubCertObjDownloadConfig = ctx.pubCertObjDownloadConfig ∧
      ss1.HasDownloaderRef = true := by
  have hss := installDownloadedObject_error env w w1 objType _ sc ss0 ss err hinst
  have hs1 : ss.State = SwState.INITIAL := by rw [hss]
  have hs2 : ss.HasDownloaderRef = true := by rw [hss]; exact href
  obtain ⟨-, hr, -⟩ := checkStorageDownloadStatusItem_frame env objType sc ctx ctx1 ret ret1
    ss ss1 hpass
  rcases hr with ⟨hd, hp⟩ | ⟨hd, -⟩
  · exact ⟨hs1, hs2, hp.1, hp.2, hd.trans hs2⟩
  · rw [hs2] at hd
    exact absurd hd (by simp)

/-- C9 amended, at the sample artifact after the failing base-OS policy. -/
theorem checkStorageDownloadStatus_keeps_reference_after_failed_install_witness :
    (sampleStatusRef SwState.DOWNLOADED).HasDownloaderRef = true ∧
    ({ sampleStatusRef SwState.INITIAL with Error := "rename failed", ErrorTime := 7 } :
      StorageStatus).State = SwState.INITIAL ∧
    ({ sampleStatusRef SwState.INITIAL with Error := "rename failed", ErrorTime := 7 } :
      StorageStatus).HasDownloaderRef = true ∧
    (sampleCtx (some (sampleRequest "a." 1))
        (some (sampleResult "a." SwState.DOWNLOADED))).pubBaseOsDownloadConfig =
      (sampleCtx (some (sampleRequest "a." 1))
        (some (sampleResult "a." SwState.DOWNLOADED))).pubBaseOsDownloadConfig ∧
    (sampleCtx (some (sampleRequest "a." 1))
        (some (sampleResult "a." SwState.DOWNLOADED))).pubCertObjDownloadConfig =
      (sampleCtx (some (sampleRequest "a." 1))
        (some (sampleResult "a." SwState.DOWNLOADED))).pubCertObjDownloadConfig ∧
    ({ sampleStatusRef SwState.DOWNLOADED with Error := "rename failed", ErrorTime := 7 } :
      StorageStatus).HasDownloaderRef = true :=
  ⟨rfl,
    checkStorageDownloadStatus_keeps_reference_after_failed_install sampleEnv () ()
      "baseOs.obj" (sampleConfig "a" "") (sampleStatusRef SwState.DOWNLOADED)
      { sampleStatusRef SwState.INITIAL with Error := "rename failed", ErrorTime := 7 }
      { sampleStatusRef SwState.DOWNLOADED with Error := "rename failed", ErrorTime := 7 }
      "rename failed"
      (sampleCtx (some (sampleRequest "a." 1)) (some (sampleResult "a." SwState.DOWNLOADED)))
      (sampleCtx (some (sampleRequest "a." 1)) (some (sampleResult "a." SwState.DOWNLOADED)))
      initRetStatus
      { initRetStatus with MinState := SwState.DOWNLOADED, Changed := true }
      rfl rfl rfl⟩

/-- C10. When `installDownloadedObjects` returns on lists of equal length, the returned
boolean is true exactly when every item of the status slice is `INSTALLED` after the pass;
it is true for the empty list. -/
theorem installDownloadedObjects_true_iff_all_installed (env : Env V W)
    (objType uuidStr : String) (w w1 : W) (config : List StorageConfig)
    (status status1 : List StorageStatus) (b : Bool)
    (hlen : config.length = status.length)
    (h : installDownloadedObjects env objType uuidStr w config status = some (w1, status1, b)) :
    (b = true ↔ ∀ ss ∈ status1, ss.State = SwState.INSTALLED) ∧
      (config = [] → b = true) :=
  ⟨installDownloadedObjects_spec env objType uuidStr config status status1 w w1 b hlen h,
    fun hc => by
      subst hc
      simp only [installDownloadedObjects, Option.some.injEq, Prod.mk.injEq] at h
      exact h.2.2.symm⟩

/-- C10 at two artifacts of which the second still waits for verification. -/
theorem installDownloadedObjects_true_iff_all_installed_witness :
    [sampleConfig "a" "", sampleConfig "b" "D1"].length =
      [sampleStatusRef SwState.DOWNLOADED, sampleStatus SwState.DOWNLOADED].length ∧
    installDownloadedObjects sampleEnv "cert.obj" "uuid" ()
        [sampleConfig "a" "", sampleConfig "b" "D1"]
        [sampleStatusRef SwState.DOWNLOADED, sampleStatus SwState.DOWNLOADED] =
      some ((), [sampleStatusRef SwState.INSTALLED, sampleStatus SwState.DOWNLOADED], false) ∧
    ((false = true ↔
        ∀ ss ∈ [sampleStatusRef SwState.INSTALLED, sampleStatus SwState.DOWNLOADED],
          ss.State = SwState.INSTALLED) ∧
      ([sampleConfig "a" "", sampleConfig "b" "D1"] = [] → false = true)) :=
  ⟨rfl, rfl,
    installDownloadedObjects_true_iff_all_installed sampleEnv "cert.obj" "uuid" () ()
      [sampleConfig "a" "", sampleConfig "b" "D1"]
      [sampleStatusRef SwState.DOWNLOADED, sampleStatus SwState.DOWNLOADED]
      [sampleStatusRef SwState.INSTALLED, sampleStatus SwState.DOWNLOADED] false rfl rfl⟩

/-- C11. `installDownloadedObject` returns `nil` with the world and the item unchanged and
makes no call to the file system, to a policy or to the clock, when the state is
`INSTALLED`, or `DOWNLOADED` with a non-empty `ImageSha256`, or none of `INSTALLED`,
`DOWNLOADED`, `DELIVERED`. In every other case (`DOWNLOADED` with empty `ImageSha256`, or
`DELIVERED`) it proceeds to placement: it computes the pending or the verified source path
and calls `os.Stat` on it first; when that fails the process ends there; when the file is
present the outcome is that of the placement, namely the final-dir error for an empty
`FinalObjDir`, the end of the call on the result of the certificate or of the base-OS
policy applied to the source path, or the error of the default branch. In none of these
cases does it return with the item unchanged. -/
theorem installDownloadedObject_noop_iff (env : Env V W) (w : W) (objType safename : String)
    (config : StorageConfig) (status : StorageStatus) :
    (InstallNoOp config status →
      installDownloadedObject env w objType safename config status = some (w, status, none) ∧
      installDownloadedObjectTrace env w objType safename config status =
        ([], status, some (w, none))) ∧
    (¬ InstallNoOp config status →
      ∃ src, installSource env objType safename config status = some src ∧
        ((status.State = SwState.DOWNLOADED ∧ config.ImageSha256 = "" ∧
            src = env.objectDownloadDirname ++ "/" ++ objType ++ "/pending/" ++ safename) ∨
          (status.State = SwState.DELIVERED ∧
            src = env.objectDownloadDirname ++ "/" ++ objType ++ "/verified/" ++
              config.ImageSha256 ++ "/" ++ env.SafenameToFilename safename)) ∧
        (∀ e, env.stat w src = some e →
          installDownloadedObject env w objType safename config status = none ∧
          installDownloadedObjectTrace env w objType safename config status =
            ([InstallCall.stat src], status, none)) ∧
        (env.stat w src = none →
          (config.FinalObjDir = "" →
            installDownloadedObject env w objType safename config status =
              some (w,
                { status with
                  State := SwState.INITIAL
                  Error := "installDownloadedObject " ++ safename ++ ", final dir not set " ++
                    objType ++ "\n"
                  ErrorTime := env.now w },
                some ("installDownloadedObject " ++ safename ++ ", final dir not set " ++
                  objType ++ "\n"))) ∧
          (config.FinalObjDir ≠ "" → objType = env.certObj →
            installDownloadedObject env w objType safename config status =
              installFinish env status
                (env.installCertObject w src config.FinalObjDir safename)) ∧
          (config.FinalObjDir ≠ "" → objType ≠ env.certObj → objType = env.baseOsObj →
            installDownloadedObject env w objType safename config status =
              installFinish env status (env.installBaseOsObject w src config.FinalObjDir)) ∧
          (config.FinalObjDir ≠ "" → objType ≠ env.certObj → objType ≠ env.baseOsObj →
            installDownloadedObject env w objType safename config status =
              some (w,
                { status with
                  State := SwState.INITIAL
                  Error := status.Error
                  ErrorTime := env.now w },
                some status.Error)) ∧
          ∃ rest, (installDownloadedObjectTrace env w objType safename config status).1 =
            InstallCall.stat src ::
              (installPlaceCalls env objType safename src config ++ rest)) ∧
        ∀ w1 e, installDownloadedObject env w objType safename config status ≠
          some (w1, status, e)) := by
  constructor
  · intro h
    have hnone := (installSource_eq_none_iff env objType safename config status).2 h
    constructor
    · unfold installDownloadedObject
      rw [hnone]
    · unfold installDownloadedObjectTrace
      rw [hnone]
  · intro h
    have hne : installSource env objType safename config status ≠ none :=
      fun e => h ((installSource_eq_none_iff env objType safename config status).1 e)
    obtain ⟨src, hsrc⟩ := Option.ne_none_iff_exists'.1 hne
    obtain ⟨hst, hrun⟩ := installDownloadedObject_of_source env w objType safename config status
      src hsrc
    have hpath : (status.State = SwState.DOWNLOADED ∧ config.ImageSha256 = "" ∧
          src = env.objectDownloadDirname ++ "/" ++ objType ++ "/pending/" ++ safename) ∨
        (status.State = SwState.DELIVERED ∧
          src = env.objectDownloadDirname ++ "/" ++ objType ++ "/verified/" ++
            config.ImageSha256 ++ "/" ++ env.SafenameToFilename safename) := by
      have hsrc' := hsrc
      unfold installSource at hsrc'
      cases hs : status.State <;> simp [hs] at hsrc'
      · by_cases hsha : config.ImageSha256 = ""
        · simp [hsha] at hsrc'
          exact Or.inl ⟨rfl, hsha, hsrc'.symm⟩
        · simp [hsha] at hsrc'
      · exact Or.inr ⟨rfl, hsrc'.symm⟩
    refine ⟨src, hsrc, hpath, ?_, ?_, ?_⟩
    · intro e hstat
      refine ⟨?_, installDownloadedObjectTrace_of_missing env w objType safename src e config
        status hsrc hstat⟩
      rw [hrun, hstat]
    · intro hstat
      have hfin := installDownloadedObject_eq_finish env w objType safename src config status
        hsrc hstat
      obtain ⟨hp1, hp2, hp3, hp4⟩ := installPlace_cases env w objType safename src config status
      refine ⟨?_, ?_, ?_, ?_, installDownloadedObjectTrace_of_present env w objType safename src
        config status hsrc hstat⟩
      · intro hd
        rw [hfin, hp1 hd]
        rfl
      · intro hd hc
        rw [hfin, hp2 hd hc]
      · intro hd hc hb
        rw [hfin, hp3 hd hc hb]
      · intro hd hc hb
        rw [hfin, hp4 hd hc hb]
        rfl
    · intro w1 e heq
      rw [hrun] at heq
      cases hx : env.stat w src with
      | some _ => simp [hx] at heq
      | none =>
        simp only [hx] at heq
        cases hp : installPlace env w objType safename src config status with
        | none => simp [hp] at heq
        | some r =>
          obtain ⟨w2, e2⟩ := r
          cases e2 with
          | none =>
            simp only [hp, Option.some.injEq, Prod.mk.injEq] at heq
            have := congrArg StorageStatus.State heq.2.1
            simp at this
            rcases hst with hst | hst <;> rw [hst] at this <;> simp at this
          | some err =>
            simp only [hp, Option.some.injEq, Prod.mk.injEq] at heq
            have := congrArg StorageStatus.State heq.2.1
            simp at this
            rcases hst with hst | hst <;> rw [hst] at this <;> simp at this

/-- C11 at an item that waits for verification (no-op, no call) and at one without
digest, whose outcome is that of the certificate policy on its source file. -/
theorem installDownloadedObject_noop_iff_witness :
    InstallNoOp (sampleConfig "b" "D1") (sampleStatusRef SwState.DOWNLOADED) ∧
    (installDownloadedObject sampleEnv () "cert.obj" "b.D1" (sampleConfig "b" "D1")
          (sampleStatusRef SwState.DOWNLOADED) =
        some ((), sampleStatusRef SwState.DOWNLOADED, none) ∧
      installDownloadedObjectTrace sampleEnv () "cert.obj" "b.D1" (sampleConfig "b" "D1")
          (sampleStatusRef SwState.DOWNLOADED) =
        ([], sampleStatusRef SwState.DOWNLOADED, some ((), none))) ∧
    ¬ InstallNoOp (sampleConfig "a" "") (sampleStatusRef SwState.DOWNLOADED) ∧
    ∃ src, installSource sampleEnv "cert.obj" "a." (sampleConfig "a" "")
          (sampleStatusRef SwState.DOWNLOADED) = some src ∧
      installDownloadedObject sampleEnv () "cert.obj" "a." (sampleConfig "a" "")
          (sampleStatusRef SwState.DOWNLOADED) =
        installFinish sampleEnv (sampleStatusRef SwState.DOWNLOADED)
          (sampleEnv.installCertObject () src "/final" "a.") :=
  ⟨by decide,
    (installDownloadedObject_noop_iff sampleEnv () "cert.obj" "b.D1" (sampleConfig "b" "D1")
      (sampleStatusRef SwState.DOWNLOADED)).1 (by decide),
    by decide,
    match (installDownloadedObject_noop_iff sampleEnv () "cert.obj" "a." (sampleConfig "a" "")
      (sampleStatusRef SwState.DOWNLOADED)).2 (by decide) with
    | ⟨src, hsrc, _, _, hok, _⟩ => ⟨src, hsrc, (hok rfl).2.1 (by decide) rfl⟩⟩

/-- C12. For an item at `DOWNLOADED` with empty `ImageSha256`, a non-empty `FinalObjDir`,
the source file present at `<objectDownloadDirname>/<objType>/pending/<safename>` and the
policy of the object kind succeeding on that source path, `installDownloadedObject` returns
`nil` with the world left by the policy and the item at `INSTALLED`. A second call on that
item returns `nil` with the world and the item unchanged, in every environment: it checks
no file and invokes no policy. -/
theorem installDownloadedObject_pending_install_idempotent (env : Env V W) (w w1 : W)
    (objType safename : String) (config : StorageConfig) (status : StorageStatus)
    (hstate : status.State = SwState.DOWNLOADED) (hsha : config.ImageSha256 = "")
    (hdir : config.FinalObjDir ≠ "")
    (hfile : env.stat w
      (env.objectDownloadDirname ++ "/" ++ objType ++ "/pending/" ++ safename) = none)
    (hpolicy :
      (objType = env.certObj ∧
        env.installCertObject w
          (env.objectDownloadDirname ++ "/" ++ objType ++ "/pending/" ++ safename)
          config.FinalObjDir safename = some (w1, none)) ∨
      (objType ≠ env.certObj ∧ objType = env.baseOsObj ∧
        env.installBaseOsObject w
          (env.objectDownloadDirname ++ "/" ++ objType ++ "/pending/" ++ safename)
          config.FinalObjDir = some (w1, none))) :
    installDownloadedObject env w objType safename config status =
        some (w1, { status with State := SwState.INSTALLED }, none) ∧
      ∀ (env2 : Env V W) (w2 : W),
        installDownloadedObject env2 w2 objType safename config
            { status with State := SwState.INSTALLED } =
          some (w2, { status with State := SwState.INSTALLED }, none) := by
  constructor
  · have hsrc : installSource env objType safename config status =
        some (env.objectDownloadDirname ++ "/" ++ objType ++ "/pending/" ++ safename) := by
      simp [installSource, hstate, hsha]
    have hplace : installPlace env w objType safename
        (env.objectDownloadDirname ++ "/" ++ objType ++ "/pending/" ++ safename) config status =
          some (w1, none) := by
      unfold installPlace
      simp only [ne_eq, hdir, not_false_eq_true, if_true]
      rcases hpolicy with ⟨hk, hp⟩ | ⟨hk1, hk2, hp⟩
      · rw [if_pos hk]
        exact hp
      · rw [if_neg hk1, if_pos hk2]
        exact hp
    rw [(installDownloadedObject_of_source env w objType safename config status _ hsrc).2]
    simp [hfile, hplace]
  · intro env2 w2
    simp [installDownloadedObject, installSource]

/-- C12 at the sample certificate artifact. -/
theorem installDownloadedObject_pending_install_idempotent_witness :
    installDownloadedObject sampleEnv () "cert.obj" "a." (sampleConfig "a" "")
        (sampleStatusRef SwState.DOWNLOADED) =
      some ((), sampleStatusRef SwState.INSTALLED, none) ∧
    installDownloadedObject sampleEnv () "cert.obj" "a." (sampleConfig "a" "")
        (sampleStatusRef SwState.INSTALLED) =
      some ((), sampleStatusRef SwState.INSTALLED, none) :=
  ⟨(installDownloadedObject_pending_install_idempotent sampleEnv () () "cert.obj" "a."
      (sampleConfig "a" "") (sampleStatusRef SwState.DOWNLOADED) rfl rfl (by decide) rfl
      (Or.inl ⟨rfl, rfl⟩)).1,
    (installDownloadedObject_pending_install_idempotent sampleEnv () () "cert.obj" "a."
      (sampleConfig "a" "") (sampleStatusRef SwState.DOWNLOADED) rfl rfl (by decide) rfl
      (Or.inl ⟨rfl, rfl⟩)).2 sampleEnv ()⟩

/-- C13, the claim as stated fails. For the object kind `other.obj`, an item at
`DOWNLOADED` without digest, its source file present and a final directory set, the call
does not abort: it returns a non-nil error and leaves the item at `INITIAL`. -/
theorem installDownloadedObject_unsupported_kind_returns :
    (installDownloadedObject sampleEnv () "other.obj" "a." (sampleConfig "a" "")
        (sampleStatusRef SwState.DOWNLOADED)).map (fun r => (r.2.1.State, r.2.2.isSome)) =
      some (SwState.INITIAL, true) := by
  decide

/-- C13, amended. For an object kind other than the base-OS and the certificate kind,
when `installDownloadedObject` reaches the dispatch on the object kind (item at `DOWNLOADED`
without digest or at `DELIVERED`, source file present, `FinalObjDir` non-empty), it does
not abort: it returns a non-nil error, leaves the world unchanged and leaves the item at
`INITIAL` with that error's text in `Error` and the time in `ErrorTime`. -/
theorem installDownloadedObject_unsupported_kind_recoverable (env : Env V W) (w : W)
    (objType safename src : String) (config : StorageConfig) (status : StorageStatus)
    (hcert : objType ≠ env.certObj) (hbase : objType ≠ env.baseOsObj)
    (hcase :
      (status.State = SwState.DOWNLOADED ∧ config.ImageSha256 = "" ∧
        src = env.objectDownloadDirname ++ "/" ++ objType ++ "/pending/" ++ safename) ∨
      (status.State = SwState.DELIVERED ∧
        src = env.objectDownloadDirname ++ "/" ++ objType ++ "/verified/" ++
          config.ImageSha256 ++ "/" ++ env.SafenameToFilename safename))
    (hfile : env.stat w src = none) (hdir : config.FinalObjDir ≠ "") :
    ∃ err, installDownloadedObject env w objType safename config status =
      some (w, { status with State := SwState.INITIAL, Error := err, ErrorTime := env.now w },
        some err) := by
  refine ⟨status.Error, ?_⟩
  have hsrc := installSource_of_case env objType safename src config status hcase
  have hplace : installPlace env w objType safename src config status =
      some (w, some status.Error) := by
    simp [installPlace, hdir, hcert, hbase]
  rw [(installDownloadedObject_of_source env w objType safename config status src hsrc).2]
  simp [hfile, hplace]

/-- C13 amended, at the object kind `other.obj`. -/
theorem installDownloadedObject_unsupported_kind_recoverable_witness :
    ∃ err, installDownloadedObject sampleEnv () "other.obj" "a." (sampleConfig "a" "")
        (sampleStatusRef SwState.DOWNLOADED) =
      some ((), { sampleStatusRef SwState.DOWNLOADED with
          State := SwState.INITIAL, Error := err, ErrorTime := sampleEnv.now () },
        some err) :=
  installDownloadedObject_unsupported_kind_recoverable sampleEnv () "other.obj" "a."
    "/persist/downloads/other.obj/pending/a." (sampleConfig "a" "")
    (sampleStatusRef SwState.DOWNLOADED) (by decide) (by decide)
    (Or.inl ⟨rfl, rfl, by decide⟩) rfl (by decide)

/-- C14. When `installDownloadedObject` proceeds to placement (`DOWNLOADED` with empty
`ImageSha256`, or `DELIVERED`) and `os.Stat` fails on the computed source path, the process
ends: the only call made is that `os.Stat`, so no install policy is invoked, and the item is
as it was, whatever `FinalObjDir`, the object kind and the policies are. -/
theorem installDownloadedObject_missing_source_fatal (env : Env V W) (w : W)
    (objType safename src : String) (config : StorageConfig) (status : StorageStatus)
    (e : String)
    (hcase :
      (status.State = SwState.DOWNLOADED ∧ config.ImageSha256 = "" ∧
        src = env.objectDownloadDirname ++ "/" ++ objType ++ "/pending/" ++ safename) ∨
      (status.State = SwState.DELIVERED ∧
        src = env.objectDownloadDirname ++ "/" ++ objType ++ "/verified/" ++
          config.ImageSha256 ++ "/" ++ env.SafenameToFilename safename))
    (hmissing : env.stat w src = some e) :
    installDownloadedObject env w objType safename config status = none ∧
      installDownloadedObjectTrace env w objType safename config status =
        ([InstallCall.stat src], status, none) := by
  have hsrc := installSource_of_case env objType safename src config status hcase
  refine ⟨?_, installDownloadedObjectTrace_of_missing env w objType safename src e config status
    hsrc hmissing⟩
  rw [(installDownloadedObject_of_source env w objType safename config status src hsrc).2]
  simp [hmissing]

/-- C14 at an empty staging area, for a certificate artifact with a final directory whose
policy would succeed. -/
theorem installDownloadedObject_missing_source_fatal_witness :
    sampleEnvNoFile.stat () "/persist/downloads/cert.obj/pending/a." =
        some "stat /persist/downloads/cert.obj/pending/a.: no such file or directory" ∧
    installDownloadedObject sampleEnvNoFile () "cert.obj" "a." (sampleConfig "a" "")
        (sampleStatusRef SwState.DOWNLOADED) = none ∧
    installDownloadedObjectTrace sampleEnvNoFile () "cert.obj" "a." (sampleConfig "a" "")
        (sampleStatusRef SwState.DOWNLOADED) =
      ([InstallCall.stat "/persist/downloads/cert.obj/pending/a."],
        sampleStatusRef SwState.DOWNLOADED, none) :=
  ⟨rfl,
    installDownloadedObject_missing_source_fatal sampleEnvNoFile () "cert.obj" "a."
      "/persist/downloads/cert.obj/pending/a." (sampleConfig "a" "")
      (sampleStatusRef SwState.DOWNLOADED)
      "stat /persist/downloads/cert.obj/pending/a.: no such file or directory"
      (Or.inl ⟨rfl, rfl, by decide⟩) rfl⟩

/-- C15. For a supported object kind, `lookupDownloaderConfig` and
`lookupDownloaderStatus` return a record exactly when the channel holds that record under
the safe name and the record's own key is the safe name, and `nil` otherwise. For a record
stored under a key that disagrees with its own key, `removeDownloaderConfig` leaves the
context unchanged and `createDownloaderConfig` publishes under the safe name the fresh
request with `RefCount = 1` built from the supplied config. -/
theorem lookup_ignores_key_mismatch (env : Env V W) (ctx : zedagentContext V)
    (objType safename : String) (sc : StorageConfig) (pub : Publication DownloaderConfig)
    (sub : Subscription DownloaderStatus) (hsup : Supported env objType)
    (hp : downloaderPublication env ctx objType = some pub)
    (hs : downloaderSubscription env ctx objType = some sub) :
    (∀ c, lookupDownloaderConfig env ctx objType safename = some (some c) ↔
      pub.Get safename = some c ∧ c.Key = safename) ∧
    ((¬ ∃ c, pub.Get safename = some c ∧ c.Key = safename) →
      lookupDownloaderConfig env ctx objType safename = some none) ∧
    (∀ d, lookupDownloaderStatus env ctx objType safename = some (some d) ↔
      sub.Get safename = some d ∧ d.Key = safename) ∧
    ((¬ ∃ d, sub.Get safename = some d ∧ d.Key = safename) →
      lookupDownloaderStatus env ctx objType safename = some none) ∧
    (∀ c, pub.Get safename = some c → c.Key ≠ safename →
      removeDownloaderConfig env ctx objType safename = some ctx ∧
      ∃ ctx1, createDownloaderConfig env ctx objType safename sc = some ctx1 ∧
        downloaderPublication env ctx1 objType =
          some (pub.Publish safename (freshRequest safename sc))) := by
  have hlc := lookupDownloaderConfig_eq env ctx objType safename pub hp
  have hls := lookupDownloaderStatus_eq env ctx objType safename sub hs
  refine ⟨?_, ?_, ?_, ?_, ?_⟩
  · intro c
    rw [hlc]
    cases hg : pub.Get safename with
    | none => simp
    | some c0 =>
      by_cases hk : c0.Key = safename
      · simp only [hk, if_true, Option.some.injEq]
        constructor
        · intro h
          subst h
          exact ⟨rfl, hk⟩
        · intro h
          exact h.1
      · simp only [hk, if_false, Option.some.injEq]
        constructor
        · intro h
          exact absurd h (by simp)
        · intro h
          exact absurd (h.1 ▸ h.2) hk
  · intro hno
    rw [hlc]
    cases hg : pub.Get safename with
    | none => rfl
    | some c0 =>
      have hk : ¬ c0.Key = safename := fun hk => hno ⟨c0, hg, hk⟩
      simp [hk]
  · intro d
    rw [hls]
    cases hg : sub.Get safename with
    | none => simp
    | some d0 =>
      by_cases hk : d0.Key = safename
      · simp only [hk, if_true, Option.some.injEq]
        constructor
        · intro h
          subst h
          exact ⟨rfl, hk⟩
        · intro h
          exact h.1
      · simp only [hk, if_false, Option.some.injEq]
        constructor
        · intro h
          exact absurd h (by simp)
        · intro h
          exact absurd (h.1 ▸ h.2) hk
  · intro hno
    rw [hls]
    cases hg : sub.Get safename with
    | none => rfl
    | some d0 =>
      have hk : ¬ d0.Key = safename := fun hk => hno ⟨d0, hg, hk⟩
      simp [hk]
  · intro c hg hk
    have hnone : lookupDownloaderConfig env ctx objType safename = some none := by
      rw [hlc, hg]
      simp [hk]
    constructor
    · rw [removeDownloaderConfig_eq env ctx objType safename pub hp, hnone]
    · refine ⟨_, createDownloaderConfig_eq env ctx objType safename sc pub hp, ?_⟩
      rw [hnone]
      exact downloaderPublication_set env ctx objType _ hsup

/-- C15 at a record with key `z.` stored under `a.`. -/
theorem lookup_ignores_key_mismatch_witness :
    sampleCtxMismatch.pubBaseOsDownloadConfig.Get "a." = some (sampleRequest "z." 5) ∧
    (sampleRequest "z." 5).Key ≠ "a." ∧
    lookupDownloaderConfig sampleEnv sampleCtxMismatch "baseOs.obj" "a." = some none ∧
    removeDownloaderConfig sampleEnv sampleCtxMismatch "baseOs.obj" "a." =
      some sampleCtxMismatch ∧
    ∃ ctx1, createDownloaderConfig sampleEnv sampleCtxMismatch "baseOs.obj" "a."
        (sampleConfig "a" "") = some ctx1 ∧
      downloaderPublication sampleEnv ctx1 "baseOs.obj" =
        some (sampleCtxMismatch.pubBaseOsDownloadConfig.Publish "a."
          (freshRequest "a." (sampleConfig "a" ""))) :=
  ⟨rfl, by decide,
    (lookup_ignores_key_mismatch sampleEnv sampleCtxMismatch "baseOs.obj" "a."
      (sampleConfig "a" "") sampleCtxMismatch.pubBaseOsDownloadConfig
      sampleCtxMismatch.subBaseOsDownloadStatus (Or.inl rfl) rfl rfl).2.1
      (by rintro ⟨c, hc, hk⟩; injection hc with hc; subst hc; exact absurd hk (by decide)),
    ((lookup_ignores_key_mismatch sampleEnv sampleCtxMismatch "baseOs.obj" "a."
      (sampleConfig "a" "") sampleCtxMismatch.pubBaseOsDownloadConfig
      sampleCtxMismatch.subBaseOsDownloadStatus (Or.inl rfl) rfl rfl).2.2.2.2
      (sampleRequest "z." 5) rfl (by decide)).1,
    ((lookup_ignores_key_mismatch sampleEnv sampleCtxMismatch "baseOs.obj" "a."
      (sampleConfig "a" "") sampleCtxMismatch.pubBaseOsDownloadConfig
      sampleCtxMismatch.subBaseOsDownloadStatus (Or.inl rfl) rfl rfl).2.2.2.2
      (sampleRequest "z." 5) rfl (by decide)).2⟩

/-- C16. For a supported object kind, `createDownloaderConfig` returns, and afterwards the
channel holds under the safe name: the found record with `RefCount` increased by one and
every other field unchanged when the lookup found one; otherwise a new record with
`RefCount = 1`, `Safename` the safe name, `UseFreeUplinks = false` and the other fields
copied from the config. Every other key holds what it held. -/
theorem createDownloaderConfig_spec (env : Env V W) (ctx : zedagentContext V)
    (objType safename : String) (sc : StorageConfig) (pub : Publication DownloaderConfig)
    (hsup : Supported env objType) (hp : downloaderPublication env ctx objType = some pub) :
    ∃ ctx1 pub1, createDownloaderConfig env ctx objType safename sc = some ctx1 ∧
      downloaderPublication env ctx1 objType = some pub1 ∧
      (∀ m, lookupDownloaderConfig env ctx objType safename = some (some m) →
        pub1.Get safename = some { m with RefCount := m.RefCount + 1 }) ∧
      (lookupDownloaderConfig env ctx objType safename = some none →
        pub1.Get safename = some
          { Safename := safename
            DownloadURL := sc.DownloadURL
            UseFreeUplinks := false
            Size := sc.Size
            TransportMethod := sc.TransportMethod
            Dpath := sc.Dpath
            ApiKey := sc.ApiKey
            Password := sc.Password
            ImageSha256 := sc.ImageSha256
            RefCount := 1 }) ∧
      ∀ k, k ≠ safename → pub1.Get k = pub.Get k := by
  refine ⟨_, _, createDownloaderConfig_eq env ctx objType safename sc pub hp,
    downloaderPublication_set env ctx objType _ hsup, ?_, ?_, ?_⟩
  · intro m hm
    rw [Publication.get_publish, if_pos rfl, hm]
  · intro hm
    rw [Publication.get_publish, if_pos rfl, hm]
    rfl
  · intro k hk
    rw [Publication.get_publish, if_neg hk]

/-- C16 at a request with one reference: the second acquire ignores the supplied
config. -/
theorem createDownloaderConfig_spec_witness :
    Supported sampleEnv "baseOs.obj" ∧
    lookupDownloaderConfig sampleEnv (sampleCtx (some (sampleRequest "a." 1)) none)
        "baseOs.obj" "a." = some (some (sampleRequest "a." 1)) ∧
    ∃ ctx1 pub1, createDownloaderConfig sampleEnv (sampleCtx (some (sampleRequest "a." 1)) none)
        "baseOs.obj" "a." (sampleConfig "other" "D9") = some ctx1 ∧
      downloaderPublication sampleEnv ctx1 "baseOs.obj" = some pub1 ∧
      pub1.Get "a." = some (sampleRequest "a." 2) :=
  ⟨Or.inl rfl, rfl,
    match createDownloaderConfig_spec sampleEnv (sampleCtx (some (sampleRequest "a." 1)) none)
      "baseOs.obj" "a." (sampleConfig "other" "D9")
      (sampleCtx (some (sampleRequest "a." 1)) none).pubBaseOsDownloadConfig (Or.inl rfl) rfl with
    | ⟨ctx1, pub1, h1, h2, h3, _, _⟩ => ⟨ctx1, pub1, h1, h2, h3 (sampleRequest "a." 1) rfl⟩⟩

/-- C17. For a supported object kind, `removeDownloaderConfig` leaves the context unchanged
when nothing is published under the safe name; republishes the record with `RefCount`
decreased by one and the other fields unchanged when its `RefCount` is greater than one;
removes the entry when its `RefCount` is one. Every other key holds what it held. -/
theorem removeDownloaderConfig_spec (env : Env V W) (ctx : zedagentContext V)
    (objType safename : String) (pub : Publication DownloaderConfig)
    (hsup : Supported env objType) (hp : downloaderPublication env ctx objType = some pub) :
    (pub.Get safename = none → removeDownloaderConfig env ctx objType safename = some ctx) ∧
    (∀ m, pub.Get safename = some m → m.Key = safename → m.RefCount > 1 →
      ∃ ctx1 pub1, removeDownloaderConfig env ctx objType safename = some ctx1 ∧
        downloaderPublication env ctx1 objType = some pub1 ∧
        pub1.Get safename = some { m with RefCount := m.RefCount - 1 } ∧
        ∀ k, k ≠ safename → pub1.Get k = pub.Get k) ∧
    (∀ m, pub.Get safename = some m → m.Key = safename → m.RefCount = 1 →
      ∃ ctx1 pub1, removeDownloaderConfig env ctx objType safename = some ctx1 ∧
        downloaderPublication env ctx1 objType = some pub1 ∧
        pub1.Get safename = none ∧
        ∀ k, k ≠ safename → pub1.Get k = pub.Get k) := by
  have hr := removeDownloaderConfig_eq env ctx objType safename pub hp
  have hlc := lookupDownloaderConfig_eq env ctx objType safename pub hp
  refine ⟨?_, ?_, ?_⟩
  · intro hg
    rw [hr, hlc, hg]
  · intro m hg hk hgt
    have hl : lookupDownloaderConfig env ctx objType safename = some (some m) := by
      rw [hlc, hg]
      simp [hk]
    refine ⟨setDownloaderPublication env ctx objType
      (pub.Publish safename { m with RefCount := m.RefCount - 1 }), _, ?_,
      downloaderPublication_set env ctx objType _ hsup, ?_, ?_⟩
    · rw [hr, hl]
      simp [hgt]
    · rw [Publication.get_publish, if_pos rfl]
    · intro k hne
      rw [Publication.get_publish, if_neg hne]
  · intro m hg hk h1
    have hl : lookupDownloaderConfig env ctx objType safename = some (some m) := by
      rw [hlc, hg]
      simp [hk]
    refine ⟨setDownloaderPublication env ctx objType (pub.Unpublish safename), _, ?_,
      downloaderPublication_set env ctx objType _ hsup, ?_, ?_⟩
    · rw [hr, hl]
      simp [h1]
    · rw [Publication.get_unpublish, if_pos rfl]
    · intro k hne
      rw [Publication.get_unpublish, if_neg hne]

/-- C17 at an absent request, a request with three references and one with a single
reference. -/
theorem removeDownloaderConfig_spec_witness :
    Supported sampleEnv "baseOs.obj" ∧
    removeDownloaderConfig sampleEnv (sampleCtx none none) "baseOs.obj" "a." =
      some (sampleCtx none none) ∧
    (∃ ctx1 pub1, removeDownloaderConfig sampleEnv (sampleCtx (some (sampleRequest "a." 3)) none)
        "baseOs.obj" "a." = some ctx1 ∧
      downloaderPublication sampleEnv ctx1 "baseOs.obj" = some pub1 ∧
      pub1.Get "a." = some (sampleRequest "a." 2)) ∧
    (∃ ctx1 pub1, removeDownloaderConfig sampleEnv (sampleCtx (some (sampleRequest "a." 1)) none)
        "baseOs.obj" "a." = some ctx1 ∧
      downloaderPublication sampleEnv ctx1 "baseOs.obj" = some pub1 ∧
      pub1.Get "a." = none) :=
  ⟨Or.inl rfl,
    (removeDownloaderConfig_spec sampleEnv (sampleCtx none none) "baseOs.obj" "a."
      (sampleCtx none none).pubBaseOsDownloadConfig (Or.inl rfl) rfl).1 rfl,
    match (removeDownloaderConfig_spec sampleEnv (sampleCtx (some (sampleRequest "a." 3)) none)
      "baseOs.obj" "a." (sampleCtx (some (sampleRequest "a." 3)) none).pubBaseOsDownloadConfig
      (Or.inl rfl) rfl).2.1 (sampleRequest "a." 3) rfl rfl (by decide) with
    | ⟨ctx1, pub1, h1, h2, h3, _⟩ => ⟨ctx1, pub1, h1, h2, h3⟩,
    match (removeDownloaderConfig_spec sampleEnv (sampleCtx (some (sampleRequest "a." 1)) none)
      "baseOs.obj" "a." (sampleCtx (some (sampleRequest "a." 1)) none).pubBaseOsDownloadConfig
      (Or.inl rfl) rfl).2.2 (sampleRequest "a." 1) rfl rfl rfl with
    | ⟨ctx1, pub1, h1, h2, h3, _⟩ => ⟨ctx1, pub1, h1, h2, h3⟩⟩

/-- C18. With `PendingAdd`, `PendingModify` or `PendingDelete` set,
`updateDownloaderStatus` returns the context unchanged, whatever the handlers and the
object kind are. With the three flags clear it is the base-OS handler on the status's
`Safename` for the base-OS kind, the certificate handler on it for the certificate kind,
and a fatal abort for every other kind. -/
theorem updateDownloaderStatus_spec (env : Env V W) (handlers : StatusHandlers V)
    (ctx : zedagentContext V) (status : DownloaderStatus) :
    ((status.PendingAdd = true ∨ status.PendingModify = true ∨ status.PendingDelete = true) →
      updateDownloaderStatus env handlers ctx status = some ctx) ∧
    ((status.PendingAdd = false ∧ status.PendingModify = false ∧ status.PendingDelete = false) →
      (status.ObjType = env.baseOsObj →
        updateDownloaderStatus env handlers ctx status =
          handlers.baseOsHandleStatusUpdateSafename ctx status.Safename) ∧
      (status.ObjType ≠ env.baseOsObj → status.ObjType = env.certObj →
        updateDownloaderStatus env handlers ctx status =
          handlers.certObjHandleStatusUpdateSafename ctx status.Safename) ∧
      (status.ObjType ≠ env.baseOsObj → status.ObjType ≠ env.certObj →
        updateDownloaderStatus env handlers ctx status = none)) := by
  constructor
  · intro h
    unfold updateDownloaderStatus
    simp only [h, if_true]
  · rintro ⟨h1, h2, h3⟩
    unfold updateDownloaderStatus
    simp only [h1, h2, h3, Bool.false_eq_true, or_self, if_false]
    refine ⟨?_, ?_, ?_⟩
    · intro hb
      rw [if_pos hb]
    · intro hb hc
      rw [if_neg hb, if_pos hc]
    · intro hb hc
      rw [if_neg hb, if_neg hc]

/-- C18 at pending results of an unsupported and of the certificate kind (whose sample
handler would abort), and at settled results of the base-OS and of an unsupported kind. -/
theorem updateDownloaderStatus_spec_witness :
    updateDownloaderStatus sampleEnv sampleHandlers (sampleCtx none none)
        { sampleResult "a." SwState.DOWNLOADED with ObjType := "other.obj", PendingAdd := true } =
      some (sampleCtx none none) ∧
    updateDownloaderStatus sampleEnv sampleHandlers (sampleCtx none none)
        { sampleResult "a." SwState.DOWNLOADED with ObjType := "cert.obj", PendingDelete := true } =
      some (sampleCtx none none) ∧
    updateDownloaderStatus sampleEnv sampleHandlers (sampleCtx none none)
        (sampleResult "a." SwState.DOWNLOADED) =
      sampleHandlers.baseOsHandleStatusUpdateSafename (sampleCtx none none) "a." ∧
    updateDownloaderStatus sampleEnv sampleHandlers (sampleCtx none none)
        { sampleResult "a." SwState.DOWNLOADED with ObjType := "other.obj" } = none :=
  ⟨(updateDownloaderStatus_spec sampleEnv sampleHandlers (sampleCtx none none)
      { sampleResult "a." SwState.DOWNLOADED with ObjType := "other.obj", PendingAdd := true }).1
      (Or.inl rfl),
    (updateDownloaderStatus_spec sampleEnv sampleHandlers (sampleCtx none none)
      { sampleResult "a." SwState.DOWNLOADED with ObjType := "cert.obj", PendingDelete := true }).1
      (Or.inr (Or.inr rfl)),
    ((updateDownloaderStatus_spec sampleEnv sampleHandlers (sampleCtx none none)
      (sampleResult "a." SwState.DOWNLOADED)).2 ⟨rfl, rfl, rfl⟩).1 rfl,
    ((updateDownloaderStatus_spec sampleEnv sampleHandlers (sampleCtx none none)
      { sampleResult "a." SwState.DOWNLOADED with ObjType := "other.obj" }).2
      ⟨rfl, rfl, rfl⟩).2.2 (by decide) (by decide)⟩

/-- C19. For a supported object kind and a single artifact that takes the download path
and whose download result is present in state `INITIAL`, the pass returns with the item at
`INITIAL`, `Error` and `ErrorTime` copied from the result's `LastErr` and `LastErrTime`,
`AllErrors = appendError "" "downloader" LastErr`, `ErrorTime = LastErrTime` and
`MinState = INITIAL`. The context is unchanged when the item already held its download
reference, and is the result of `createDownloaderConfig` otherwise; in both cases a request
that is published under the safe name stays published. -/
theorem checkStorageDownloadStatus_downloader_error (env : Env V W) (ctx : zedagentContext V)
    (objType uuidStr : String) (sc : StorageConfig) (ss : StorageStatus)
    (ds : DownloaderStatus) (hsup : Supported env objType)
    (hni : ss.State ≠ SwState.INSTALLED)
    (hpath : sc.ImageSha256 = "" ∨
      env.lookupVerificationStatusAny ctx.verifier objType
        (env.UrlToSafename sc.DownloadURL sc.ImageSha256) sc.ImageSha256 = some none ∨
      ∃ vs, env.lookupVerificationStatusAny ctx.verifier objType
          (env.UrlToSafename sc.DownloadURL sc.ImageSha256) sc.ImageSha256 = some (some vs) ∧
        vs.State ≠ SwState.DELIVERED)
    (hds : lookupDownloaderStatus env ctx objType
      (env.UrlToSafename sc.DownloadURL sc.ImageSha256) = some (some ds))
    (hinit : ds.State = SwState.INITIAL) :
    ∃ ctx1, checkStorageDownloadStatus env ctx objType uuidStr [sc] [ss] =
        some (ctx1,
          { Changed := true
            MinState := SwState.INITIAL
            AllErrors := env.appendError "" "downloader" ds.LastErr
            ErrorTime := ds.LastErrTime
            WaitingForCerts := false },
          [{ State := SwState.INITIAL
             HasDownloaderRef := true
             HasVerifierRef := ss.HasVerifierRef
             Error := ds.LastErr
             ErrorTime := ds.LastErrTime }]) ∧
      (ss.HasDownloaderRef = true → ctx1 = ctx) ∧
      (ss.HasDownloaderRef = false →
        createDownloaderConfig env ctx objType
          (env.UrlToSafename sc.DownloadURL sc.ImageSha256) sc = some ctx1) ∧
      ((ss.HasDownloaderRef = false ∨
          ∃ k, Published env ctx objType (env.UrlToSafename sc.DownloadURL sc.ImageSha256) k) →
        ∃ k, Published env ctx1 objType (env.UrlToSafename sc.DownloadURL sc.ImageSha256) k) := by
  have hitem : ∀ r : RetStatus, checkStorageDownloadStatusItem env objType sc ctx r ss =
      checkStorageDownloader env objType (env.UrlToSafename sc.DownloadURL sc.ImageSha256) sc
        ctx r ss := by
    intro r
    unfold checkStorageDownloadStatusItem
    simp only [hni, if_false]
    rcases hpath with h | h | ⟨vs, h, hv⟩
    · simp [h]
    · by_cases hsha : sc.ImageSha256 = ""
      · simp [hsha]
      · simp [hsha, h]
    · by_cases hsha : sc.ImageSha256 = ""
      · simp [hsha]
      · simp [hsha, h, hv]
  unfold checkStorageDownloadStatus
  simp only [checkStorageDownloadStatusLoop, hitem]
  unfold checkStorageDownloader
  by_cases href : ss.HasDownloaderRef = false
  · simp only [href, if_true]
    obtain ⟨pub, hp⟩ := supported_publication env ctx objType hsup
    obtain ⟨ctxm, hc⟩ : ∃ ctxm, createDownloaderConfig env ctx objType
        (env.UrlToSafename sc.DownloadURL sc.ImageSha256) sc = some ctxm :=
      ⟨_, createDownloaderConfig_eq env ctx objType _ sc pub hp⟩
    have hsm := (createDownloaderConfig_subs env ctx ctxm objType _ sc hc).1
    have hds' := hds
    rw [← lookupDownloaderStatus_congr env ctx ctxm objType _ hsm] at hds'
    simp only [hc, checkStorageResult_initial env objType _ sc ctxm _ _ ds hds' hinit]
    refine ⟨ctxm, ?_, ?_, ?_, ?_⟩
    · simp [initRetStatus]
    · intro h
      exact absurd h (by simp)
    · intro _
      rfl
    · intro _
      obtain ⟨k, hk, -⟩ := createDownloaderConfig_published env ctx ctxm objType _ sc hsup hc
      exact ⟨k, hk⟩
  · have href' : ss.HasDownloaderRef = true := by simpa using href
    simp only [href', Bool.true_eq_false, if_false]
    simp only [checkStorageResult_initial env objType _ sc ctx _ _ ds hds hinit]
    refine ⟨ctx, ?_, ?_, ?_, ?_⟩
    · simp [initRetStatus, href']
    · intro _
      rfl
    · intro h
      exact absurd h (by simp [href'])
    · intro h
      rcases h with h | h
      · exact absurd h (by simp [href'])
      · exact h

/-- C19 at a fresh sample artifact whose download timed out. -/
theorem checkStorageDownloadStatus_downloader_error_witness :
    ∃ ctx1, checkStorageDownloadStatus sampleEnv
        (sampleCtx none
          (some { sampleResult "a." SwState.INITIAL with LastErr := "timeout", LastErrTime := 9 }))
        "baseOs.obj" "uuid" [sampleConfig "a" ""] [sampleStatus SwState.DOWNLOAD_STARTED] =
      some (ctx1,
        { Changed := true
          MinState := SwState.INITIAL
          AllErrors := "downloader: timeout\n\n"
          ErrorTime := 9
          WaitingForCerts := false },
        [{ State := SwState.INITIAL
           HasDownloaderRef := true
           HasVerifierRef := false
           Error := "timeout"
           ErrorTime := 9 }]) ∧
      ∃ k, Published sampleEnv ctx1 "baseOs.obj" "a." k :=
  match checkStorageDownloadStatus_downloader_error sampleEnv
      (sampleCtx none
        (some { sampleResult "a." SwState.INITIAL with LastErr := "timeout", LastErrTime := 9 }))
      "baseOs.obj" "uuid" (sampleConfig "a" "") (sampleStatus SwState.DOWNLOAD_STARTED)
      { sampleResult "a." SwState.INITIAL with LastErr := "timeout", LastErrTime := 9 }
      (Or.inl rfl) (by decide) (Or.inl rfl) rfl rfl with
  | ⟨ctx1, h1, _, _, h4⟩ => ⟨ctx1, h1, h4 (Or.inl rfl)⟩

/-- C20. The claim is that a second pass right after a first one returns the same
`MinState`. With a first artifact whose download result reports `DOWNLOADED` and a second
one whose download result reports `INSTALLED`, the first pass takes the minimum and returns
`DOWNLOADED`; in the second pass the second item is already `INSTALLED`, line 155 assigns
its state, and the pass returns `INSTALLED`. The item states are the same after both
passes. -/
theorem twoPassTrace_minState_differs :
    twoPassTrace (sampleResult "a." SwState.DOWNLOADED) (sampleResult "b." SwState.INSTALLED) =
      some ((SwState.DOWNLOADED, [SwState.DOWNLOADED, SwState.INSTALLED]),
        (SwState.INSTALLED, [SwState.DOWNLOADED, SwState.INSTALLED])) := by
  decide

end Zedagent
